import Mathlib

/-!
Shallow embedding of the toad terminal emulator engine
(src/vte/vte_parser.c and src/vte/vte_parser.h): the VTE escape-sequence
parser (Paul Williams style state machine with UTF-8 decoding layered on
top) and the screen model given by the enhanced_* perform callbacks.

Machine integers of the C source are modelled as follows: C `int` fields
become `Int`, `uint16_t` and byte values become `Nat` (their ranges are
enforced by the operations themselves, e.g. parameter saturation at
65535), the `attrs` bitset becomes `Nat` with explicit bitwise
operations.  The C expression `x &= ~m` on the attribute masks is
modelled by `x - (x &&& m)`, which agrees with the two's-complement
bitwise form on every natural number.  The cell grid (a `terminal_cell_t **`
owned by the panel) becomes a `List (List Cell)`; rows have length
`screen_width` in every reachable state.  The parser emits a list of
events and the screen folds over them, which is the event-callback
surface of the C code with the panel-independence of parsing made
explicit.
-/

set_option maxRecDepth 10000

/-- One grid cell: `terminal_cell_t`. -/
structure Cell where
  codepoint : Nat
  fg_color : Int
  bg_color : Int
  attrs : Nat
  deriving DecidableEq, Repr

/-- Boolean terminal modes: `terminal_modes_t`. -/
structure TerminalModes where
  application_cursor_keys : Bool
  application_keypad : Bool
  auto_wrap : Bool
  origin_mode : Bool
  insert_mode : Bool
  local_echo : Bool
  cursor_visible : Bool
  reverse_video : Bool
  bracketed_paste : Bool
  deriving DecidableEq, Repr

/-- Character sets: `charset_t`. -/
inductive Charset where
  | ascii | dec_special | uk | dutch | finnish | french | french_canadian
  | german | italian | norwegian_danish | spanish | swedish | swiss
  deriving DecidableEq, Repr

/-- Parser states: `vte_state_t`. -/
inductive VteState where
  | ground | escape | escape_intermediate
  | csi_entry | csi_param | csi_intermediate | csi_ignore
  | dcs_entry | dcs_param | dcs_intermediate | dcs_passthrough | dcs_ignore
  | osc_string | sos_pm_apc_string
  deriving DecidableEq, Repr

/-- The screen-model state: the engine-relevant fields of
`struct terminal_panel` (window handle, file descriptors and layout
coordinates of the host are out of scope). -/
structure Panel where
  screen_width : Int
  screen_height : Int
  cursor_x : Int
  cursor_y : Int
  saved_cursor_x : Int
  saved_cursor_y : Int
  scroll_top : Int
  scroll_bottom : Int
  fg_color : Int
  bg_color : Int
  attrs : Nat
  saved_fg_color : Int
  saved_bg_color : Int
  saved_attrs : Nat
  g0_charset : Charset
  g1_charset : Charset
  using_g1 : Bool
  modes : TerminalModes
  tab_stops : List Bool
  screen : List (List Cell)
  deriving DecidableEq, Repr

/-- `VTE_MAX_PARAMS`. -/
def VTE_MAX_PARAMS : Nat := 32
/-- `VTE_MAX_INTERMEDIATES`. -/
def VTE_MAX_INTERMEDIATES : Nat := 2
/-- `VTE_MAX_OSC_RAW`. -/
def VTE_MAX_OSC_RAW : Nat := 1024
/-- `VTE_MAX_OSC_PARAMS`. -/
def VTE_MAX_OSC_PARAMS : Nat := 16

/-- `vte_params_t`: `data` and `marks` are the first `len` entries of the
`params` and `subparams` arrays (entries beyond `len` are never read; the
appends below write exactly the values the C code leaves there after a
`vte_params_clear`), `cs` is `current_subparams`. -/
structure VteParams where
  data : List Nat
  marks : List Nat
  cs : Nat
  deriving DecidableEq, Repr

/-- `vte_params_clear` / the state after `vte_params_init`. -/
def vte_params_clear : VteParams := ⟨[], [], 0⟩

/-- `vte_params_is_full`. -/
def vte_params_is_full (ps : VteParams) : Bool := ps.data.length ≥ VTE_MAX_PARAMS

/-- `vte_params_push`. -/
def vte_params_push (ps : VteParams) (value : Nat) : VteParams :=
  if ps.data.length ≥ VTE_MAX_PARAMS then ps
  else
    let marks1 := if ps.cs > 0 then ps.marks.set (ps.data.length - ps.cs) ps.cs else ps.marks
    ⟨ps.data ++ [value], marks1 ++ [1], 0⟩

/-- `vte_params_extend`.  The C code appends `value` at `params[len]`
leaving `subparams[len]` at the value 0 it has after the clear, bumps
`len` and `current_subparams`, and then (when the group does not start at
position 0) writes the new group size at the group start. -/
def vte_params_extend (ps : VteParams) (value : Nat) : VteParams :=
  if ps.data.length ≥ VTE_MAX_PARAMS then ps
  else
    let d1 := ps.data ++ [value]
    let m1 := ps.marks ++ [0]
    if d1.length > ps.cs + 1 then
      ⟨d1, m1.set (ps.data.length - ps.cs - 1) (ps.cs + 1), ps.cs + 1⟩
    else
      ⟨d1, m1, ps.cs + 1⟩

/-- The stride the walking loops of `vte_params_len` / `vte_params_get`
take at a position: `subparams[pos]`, treated as 1 when it is 0. -/
def vte_params_stride (ps : VteParams) (pos : Nat) : Nat :=
  let s := ps.marks.getD pos 0
  if s = 0 then 1 else s

/-- The `pos` after the walking loop of `vte_params_get` has advanced
`index` times (it stops early once `pos` reaches `len`). -/
def vte_params_pos (ps : VteParams) : Nat → Nat
  | 0 => 0
  | i + 1 =>
    let q := vte_params_pos ps i
    if q < ps.data.length then q + vte_params_stride ps q else q

/-- The counting loop of `vte_params_len`, from a starting position.
The loop variant is `len - pos` (the stride is at least 1), so a fuel of
`len - pos` or more makes this exactly the C loop. -/
def vte_params_count_go (ps : VteParams) : Nat → Nat → Nat
  | 0, _ => 0
  | fuel + 1, pos =>
    if pos < ps.data.length then
      1 + vte_params_count_go ps fuel (pos + vte_params_stride ps pos)
    else 0

/-- `vte_params_len`: the number of primary parameters. -/
def vte_params_len (ps : VteParams) : Nat := vte_params_count_go ps ps.data.length 0

/-- `vte_params_get`: the value slice of primary parameter `index`
(`none` is the NULL return). -/
def vte_params_get (ps : VteParams) (index : Nat) : Option (List Nat) :=
  let pos := vte_params_pos ps index
  if pos < ps.data.length then some ((ps.data.drop pos).take (vte_params_stride ps pos))
  else none

/-- `vte_params_get_single`: first value of primary parameter `index`, or
the default when the parameter is absent. -/
def vte_params_get_single (ps : VteParams) (index : Nat) (default_val : Nat) : Nat :=
  let pos := vte_params_pos ps index
  if pos < ps.data.length then ps.data.getD pos default_val else default_val

/-- `vte_is_utf8_continuation`. -/
def vte_is_utf8_continuation (byte : Nat) : Bool := byte &&& 0xC0 = 0x80

/-- `vte_utf8_char_len`. -/
def vte_utf8_char_len (first_byte : Nat) : Nat :=
  if first_byte &&& 0x80 = 0 then 1
  else if first_byte &&& 0xE0 = 0xC0 then 2
  else if first_byte &&& 0xF0 = 0xE0 then 3
  else if first_byte &&& 0xF8 = 0xF0 then 4
  else 0

/-- `vte_utf8_decode`, on the byte slice it is given (`len` is the length
of the list). -/
def vte_utf8_decode (bytes : List Nat) : Nat :=
  match bytes with
  | [] => 0
  | first :: rest =>
    if first &&& 0x80 = 0 then first
    else if first &&& 0xE0 = 0xC0 then
      if rest.length + 1 ≥ 2 then
        ((first &&& 0x1F) <<< 6) ||| (rest.getD 0 0 &&& 0x3F)
      else 0xFFFD
    else if first &&& 0xF0 = 0xE0 then
      if rest.length + 1 ≥ 3 then
        ((first &&& 0x0F) <<< 12) ||| ((rest.getD 0 0 &&& 0x3F) <<< 6) ||| (rest.getD 1 0 &&& 0x3F)
      else 0xFFFD
    else if first &&& 0xF8 = 0xF0 then
      if rest.length + 1 ≥ 4 then
        ((first &&& 0x07) <<< 18) ||| ((rest.getD 0 0 &&& 0x3F) <<< 12) |||
          ((rest.getD 1 0 &&& 0x3F) <<< 6) ||| (rest.getD 2 0 &&& 0x3F)
      else 0xFFFD
    else 0xFFFD

/-- The DEC Special Graphics table for bytes 0x60..0x7E in
`map_charset_char`. -/
def dec_special_table : List Nat :=
  [0x25C6, 0x2592, 0x2409, 0x240C, 0x240D, 0x240A, 0x00B0, 0x00B1,
   0x2424, 0x240B, 0x2518, 0x2510, 0x250C, 0x2514, 0x253C, 0x23BA,
   0x23BB, 0x2500, 0x23BC, 0x23BD, 0x251C, 0x2524, 0x2534, 0x252C,
   0x2502, 0x2264, 0x2265, 0x03C0, 0x2260, 0x00A3, 0x00B7]

/-- `map_charset_char`. -/
def map_charset_char (charset : Charset) (ch : Nat) : Nat :=
  if charset = Charset.dec_special ∧ 0x60 ≤ ch ∧ ch ≤ 0x7E then
    dec_special_table.getD (ch - 0x60) ch
  else ch

example : vte_utf8_decode [0xC3, 0xA9] = 0xE9 := by decide
example : vte_utf8_decode [0xE2, 0x82, 0xAC] = 0x20AC := by decide
example : vte_utf8_char_len 0xA9 = 0 := by decide
example : map_charset_char Charset.dec_special 0x71 = 0x2500 := by decide

/-- The blank cell the clearing loops write: a space carrying the current
pen. -/
def blank_cell (p : Panel) : Cell := ⟨32, p.fg_color, p.bg_color, p.attrs⟩

/-- Apply a position-dependent function to every cell of the grid. -/
def mapGrid (f : Nat → Nat → Cell → Cell) (g : List (List Cell)) : List (List Cell) :=
  g.mapIdx fun r row => row.mapIdx fun c cell => f r c cell

/-- Replace row `y` of the grid by `f` of it. -/
def modifyRow (g : List (List Cell)) (y : Nat) (f : List Cell → List Cell) : List (List Cell) :=
  g.set y (f (g.getD y []))

/-- Write one cell of the grid. -/
def grid_set_cell (g : List (List Cell)) (y x : Nat) (cell : Cell) : List (List Cell) :=
  g.set y ((g.getD y []).set x cell)

/-- `terminal_panel_init`: sets every engine field except the grid
contents (the C code leaves the `screen` allocation untouched). -/
def terminal_panel_init (p : Panel) (width height : Int) : Panel :=
  { p with
    screen_width := width
    screen_height := height
    cursor_x := 0
    cursor_y := 0
    saved_cursor_x := 0
    saved_cursor_y := 0
    scroll_top := 0
    scroll_bottom := height - 1
    g0_charset := Charset.ascii
    g1_charset := Charset.dec_special
    using_g1 := false
    modes :=
      { application_cursor_keys := false
        application_keypad := false
        auto_wrap := true
        origin_mode := false
        insert_mode := false
        local_echo := false
        cursor_visible := true
        reverse_video := false
        bracketed_paste := false }
    tab_stops := (List.range 256).map fun i => decide (i % 8 = 0 ∧ i ≠ 0)
    fg_color := -1
    bg_color := -1
    attrs := 0
    saved_fg_color := -1
    saved_bg_color := -1
    saved_attrs := 0 }

/-- `terminal_clear_screen`.  The row/column bounds mirror the loop
bounds of the C code, including the always-true `cursor_y == end_row - 1`
test of mode 1. -/
def terminal_clear_screen (p : Panel) (mode : Nat) : Panel :=
  let start_row : Int := if mode = 0 then p.cursor_y else 0
  let end_row : Int := if mode = 1 then p.cursor_y + 1 else p.screen_height
  let start_col : Int := if mode = 0 then p.cursor_x else 0
  let end_col : Int := if mode = 1 then p.cursor_x + 1 else p.screen_width
  { p with
    screen := mapGrid (fun r c cell =>
      if start_row ≤ (r : Int) ∧ (r : Int) < end_row ∧ (r : Int) < p.screen_height ∧
         (if (r : Int) = start_row then start_col else 0) ≤ (c : Int) ∧
         (c : Int) < (if (r : Int) = end_row - 1 then end_col else p.screen_width) ∧
         (c : Int) < p.screen_width
      then blank_cell p else cell) p.screen }

/-- `terminal_clear_line`. -/
def terminal_clear_line (p : Panel) (mode : Nat) : Panel :=
  if p.cursor_y < 0 ∨ p.cursor_y ≥ p.screen_height then p
  else
    let start_col : Int := if mode = 0 then p.cursor_x else 0
    let end_col : Int := if mode = 1 then p.cursor_x + 1 else p.screen_width
    { p with
      screen := modifyRow p.screen p.cursor_y.toNat (fun row =>
        row.mapIdx fun c cell =>
          if start_col ≤ (c : Int) ∧ (c : Int) < end_col ∧ (c : Int) < p.screen_width
          then blank_cell p else cell) }

/-- One iteration of the row-moving loops of `terminal_scroll_up` /
`terminal_delete_lines`: rows `lo..hi-1` take the contents of the row
below them and row `hi` is blanked. -/
def grid_shift_up (width lo hi : Int) (blank : Cell) (g : List (List Cell)) : List (List Cell) :=
  g.mapIdx fun r row =>
    if lo ≤ (r : Int) ∧ (r : Int) < hi then g.getD (r + 1) row
    else if (r : Int) = hi then row.mapIdx (fun c cell => if (c : Int) < width then blank else cell)
    else row

/-- One iteration of the row-moving loops of `terminal_scroll_down` /
`terminal_insert_lines`: rows `lo+1..hi` take the contents of the row
above them and row `lo` is blanked. -/
def grid_shift_down (width lo hi : Int) (blank : Cell) (g : List (List Cell)) : List (List Cell) :=
  g.mapIdx fun r row =>
    if lo < (r : Int) ∧ (r : Int) ≤ hi then g.getD (r - 1) row
    else if (r : Int) = lo then row.mapIdx (fun c cell => if (c : Int) < width then blank else cell)
    else row

/-- `n`-fold iteration, mirroring a `for (i = 0; i < n; i++)` loop. -/
def iterN (f : α → α) : Nat → α → α
  | 0, a => a
  | n + 1, a => iterN f n (f a)

/-- `terminal_scroll_up`. -/
def terminal_scroll_up (p : Panel) (lines : Int) : Panel :=
  if lines ≤ 0 then p
  else if p.scroll_top ≥ p.scroll_bottom ∨ p.scroll_top < 0 ∨ p.scroll_bottom ≥ p.screen_height then p
  else
    { p with screen :=
        (iterN (grid_shift_up p.screen_width p.scroll_top p.scroll_bottom (blank_cell p))
          lines.toNat p.screen) }

/-- `terminal_scroll_down`. -/
def terminal_scroll_down (p : Panel) (lines : Int) : Panel :=
  if lines ≤ 0 then p
  else if p.scroll_top ≥ p.scroll_bottom ∨ p.scroll_top < 0 ∨ p.scroll_bottom ≥ p.screen_height then p
  else
    { p with screen :=
        (iterN (grid_shift_down p.screen_width p.scroll_top p.scroll_bottom (blank_cell p))
          lines.toNat p.screen) }

/-- `terminal_insert_lines`. -/
def terminal_insert_lines (p : Panel) (count : Int) : Panel :=
  if count ≤ 0 then p
  else if p.cursor_y < p.scroll_top ∨ p.cursor_y > p.scroll_bottom then p
  else
    { p with screen :=
        (iterN (grid_shift_down p.screen_width p.cursor_y p.scroll_bottom (blank_cell p))
          count.toNat p.screen) }

/-- `terminal_delete_lines`. -/
def terminal_delete_lines (p : Panel) (count : Int) : Panel :=
  if count ≤ 0 then p
  else if p.cursor_y < p.scroll_top ∨ p.cursor_y > p.scroll_bottom then p
  else
    { p with screen :=
        (iterN (grid_shift_up p.screen_width p.cursor_y p.scroll_bottom (blank_cell p))
          count.toNat p.screen) }

/-- `terminal_insert_chars`: on the cursor row, cells from
`cursor_x + count` on take the contents of the cell `count` places to
their left, and cells `cursor_x .. cursor_x + count - 1` are blanked. -/
def terminal_insert_chars (p : Panel) (count : Int) : Panel :=
  if count ≤ 0 ∨ p.cursor_y < 0 ∨ p.cursor_y ≥ p.screen_height then p
  else
    { p with screen := modifyRow p.screen p.cursor_y.toNat (fun row =>
        row.mapIdx fun c cell =>
          if p.cursor_x + count ≤ (c : Int) then
            (if 0 ≤ (c : Int) - count then row.getD ((c : Int) - count).toNat cell else cell)
          else if p.cursor_x ≤ (c : Int) then blank_cell p
          else cell) }

/-- `terminal_delete_chars`: on the cursor row, cells from `cursor_x` up
to `width - count - 1` take the contents of the cell `count` places to
their right, and the final clearing loop blanks every column from
`width - count` on. -/
def terminal_delete_chars (p : Panel) (count : Int) : Panel :=
  if count ≤ 0 ∨ p.cursor_y < 0 ∨ p.cursor_y ≥ p.screen_height then p
  else
    { p with screen := modifyRow p.screen p.cursor_y.toNat (fun row =>
        row.mapIdx fun c cell =>
          if p.screen_width - count ≤ (c : Int) then blank_cell p
          else if p.cursor_x ≤ (c : Int) then row.getD ((c : Int) + count).toNat cell
          else cell) }

/-- `terminal_save_cursor`. -/
def terminal_save_cursor (p : Panel) : Panel :=
  { p with
    saved_cursor_x := p.cursor_x
    saved_cursor_y := p.cursor_y
    saved_fg_color := p.fg_color
    saved_bg_color := p.bg_color
    saved_attrs := p.attrs }

/-- `terminal_restore_cursor`. -/
def terminal_restore_cursor (p : Panel) : Panel :=
  { p with
    cursor_x := p.saved_cursor_x
    cursor_y := p.saved_cursor_y
    fg_color := p.saved_fg_color
    bg_color := p.saved_bg_color
    attrs := p.saved_attrs }

/-- `terminal_set_tab_stop`. -/
def terminal_set_tab_stop (p : Panel) : Panel :=
  if 0 ≤ p.cursor_x ∧ p.cursor_x < 256 then
    { p with tab_stops := p.tab_stops.set p.cursor_x.toNat true }
  else p

/-- `terminal_clear_tab_stop`. -/
def terminal_clear_tab_stop (p : Panel) (mode : Nat) : Panel :=
  if mode = 0 then
    if 0 ≤ p.cursor_x ∧ p.cursor_x < 256 then
      { p with tab_stops := p.tab_stops.set p.cursor_x.toNat false }
    else p
  else if mode = 3 then { p with tab_stops := p.tab_stops.map fun _ => false }
  else p

/-- Read a tab stop, false outside the 256-entry table. -/
def terminal_tab_stop_at (p : Panel) (t : Int) : Bool :=
  if 0 ≤ t ∧ t < 256 then p.tab_stops.getD t.toNat false else false

/-- The inner scanning loop of `terminal_tab_forward`; the loop variant
is `min width 256 - t`. -/
def tab_scan_forward_go (p : Panel) : Nat → Int → Int
  | 0, t => t
  | fuel + 1, t =>
    if t < p.screen_width ∧ t < 256 ∧ ¬ terminal_tab_stop_at p t then
      tab_scan_forward_go p fuel (t + 1)
    else t

/-- The inner scanning loop of `terminal_tab_forward`, with the fuel the
variant bounds. -/
def tab_scan_forward (p : Panel) (t : Int) : Int :=
  tab_scan_forward_go p (min p.screen_width 256 - t).toNat t

/-- The cursor-column recursion of `terminal_tab_forward` (the loop only
ever writes `cursor_x`). -/
def terminal_tab_forward_x (p : Panel) (x : Int) : Nat → Int
  | 0 => x
  | c + 1 =>
    let next_tab := tab_scan_forward p (x + 1)
    if next_tab < p.screen_width then terminal_tab_forward_x p next_tab c
    else p.screen_width - 1

/-- `terminal_tab_forward`. -/
def terminal_tab_forward (p : Panel) (count : Nat) : Panel :=
  { p with cursor_x := terminal_tab_forward_x p p.cursor_x count }

/-- The inner scanning loop of `terminal_tab_backward`; the loop variant
is `t + 1`. -/
def tab_scan_backward_go (p : Panel) : Nat → Int → Int
  | 0, t => t
  | fuel + 1, t =>
    if 0 ≤ t ∧ ¬ terminal_tab_stop_at p t then tab_scan_backward_go p fuel (t - 1)
    else t

/-- The inner scanning loop of `terminal_tab_backward`, with the fuel the
variant bounds. -/
def tab_scan_backward (p : Panel) (t : Int) : Int :=
  tab_scan_backward_go p (t + 1).toNat t

/-- The cursor-column recursion of `terminal_tab_backward`. -/
def terminal_tab_backward_x (p : Panel) (x : Int) : Nat → Int
  | 0 => x
  | c + 1 =>
    let prev_tab := tab_scan_backward p (x - 1)
    if 0 ≤ prev_tab then terminal_tab_backward_x p prev_tab c
    else 0

/-- `terminal_tab_backward`. -/
def terminal_tab_backward (p : Panel) (count : Nat) : Panel :=
  { p with cursor_x := terminal_tab_backward_x p p.cursor_x count }

/-- `terminal_panel_reset`. -/
def terminal_panel_reset (p : Panel) : Panel :=
  terminal_clear_screen (terminal_panel_init p p.screen_width p.screen_height) 2

/-- `enhanced_print`: charset remap in the ASCII range, insert-mode
shift, cell write with the current pen, cursor advance with immediate
auto-wrap and scroll at the region bottom. -/
def enhanced_print (p : Panel) (codepoint : Nat) : Panel :=
  let cp := if 0x20 ≤ codepoint ∧ codepoint ≤ 0x7E then
      map_charset_char (if p.using_g1 then p.g1_charset else p.g0_charset) codepoint
    else codepoint
  if 0 ≤ p.cursor_y ∧ p.cursor_y < p.screen_height ∧
     0 ≤ p.cursor_x ∧ p.cursor_x < p.screen_width then
    let p1 := if p.modes.insert_mode then terminal_insert_chars p 1 else p
    let cell : Cell := ⟨cp, p1.fg_color, p1.bg_color, p1.attrs⟩
    let p2 := { p1 with
      screen := grid_set_cell p1.screen p1.cursor_y.toNat p1.cursor_x.toNat cell
      cursor_x := p1.cursor_x + 1 }
    if p2.cursor_x ≥ p2.screen_width then
      if p2.modes.auto_wrap then
        let p3 := { p2 with cursor_x := 0, cursor_y := p2.cursor_y + 1 }
        if p3.cursor_y > p3.scroll_bottom then
          terminal_scroll_up { p3 with cursor_y := p3.scroll_bottom } 1
        else p3
      else { p2 with cursor_x := p2.screen_width - 1 }
    else p2
  else p

/-- `enhanced_execute`: C0 (and the 8-bit 0x84/0x85/0x88/0x8D) control
characters. -/
def enhanced_execute (p : Panel) (byte : Nat) : Panel :=
  if byte = 0x07 then p
  else if byte = 0x08 then
    if p.cursor_x > 0 then { p with cursor_x := p.cursor_x - 1 } else p
  else if byte = 0x09 then terminal_tab_forward p 1
  else if byte = 0x0A ∨ byte = 0x0B ∨ byte = 0x0C then
    let p1 := { p with cursor_x := 0 }
    if p1.cursor_y ≥ p1.scroll_bottom then terminal_scroll_up p1 1
    else { p1 with cursor_y := p1.cursor_y + 1 }
  else if byte = 0x0D then { p with cursor_x := 0 }
  else if byte = 0x0E then { p with using_g1 := true }
  else if byte = 0x0F then { p with using_g1 := false }
  else if byte = 0x84 then
    if p.cursor_y ≥ p.scroll_bottom then terminal_scroll_up p 1
    else { p with cursor_y := p.cursor_y + 1 }
  else if byte = 0x85 then
    let p1 := { p with cursor_x := 0 }
    if p1.cursor_y ≥ p1.scroll_bottom then terminal_scroll_up p1 1
    else { p1 with cursor_y := p1.cursor_y + 1 }
  else if byte = 0x88 then terminal_set_tab_stop p
  else if byte = 0x8D then
    if p.cursor_y ≤ p.scroll_top then terminal_scroll_down p 1
    else { p with cursor_y := p.cursor_y - 1 }
  else p

/-- The three pen fields the SGR case of `enhanced_csi_dispatch`
mutates. -/
structure SgrPen where
  fg : Int
  bg : Int
  attrs : Nat
  deriving DecidableEq, Repr

/-- Models `x &= ~m` on the attribute masks (exact on `Nat`). -/
def attr_clear (x m : Nat) : Nat := x - (x &&& m)

/-- The RGB-to-8-color mapping of the SGR 38/48 RGB branch. -/
def sgr_rgb (r g b : Nat) : Nat :=
  (if r > 127 then 1 else 0) ||| (if g > 127 then 2 else 0) ||| (if b > 127 then 4 else 0)

/-- The SGR parameter loop of `enhanced_csi_dispatch` case `m` (the loop
only ever writes `fg_color`, `bg_color`, `attrs`).  `i` strictly
increases each iteration and the loop runs while `i < len`, so the loop
variant `len - i` bounds the iteration count; `sgr_loop` below passes a
fuel that covers it. -/
def sgr_go (ps : VteParams) : Nat → Nat → SgrPen → SgrPen
  | 0, _, pen => pen
  | fuel + 1, i, pen =>
  if i < vte_params_len ps then
    let prm := vte_params_get_single ps i 0
    if prm = 0 then sgr_go ps fuel (i + 1) ⟨-1, -1, 0⟩
    else if prm = 1 then sgr_go ps fuel (i + 1) { pen with attrs := pen.attrs ||| 1 }
    else if prm = 2 then sgr_go ps fuel (i + 1) { pen with attrs := pen.attrs ||| 8 }
    else if prm = 3 then sgr_go ps fuel (i + 1) { pen with attrs := pen.attrs ||| 16 }
    else if prm = 4 then sgr_go ps fuel (i + 1) { pen with attrs := pen.attrs ||| 2 }
    else if prm = 5 then sgr_go ps fuel (i + 1) { pen with attrs := pen.attrs ||| 32 }
    else if prm = 7 then sgr_go ps fuel (i + 1) { pen with attrs := pen.attrs ||| 4 }
    else if prm = 8 then sgr_go ps fuel (i + 1) { pen with attrs := pen.attrs ||| 64 }
    else if prm = 9 then sgr_go ps fuel (i + 1) { pen with attrs := pen.attrs ||| 128 }
    else if prm = 22 then sgr_go ps fuel (i + 1) { pen with attrs := attr_clear pen.attrs 9 }
    else if prm = 23 then sgr_go ps fuel (i + 1) { pen with attrs := attr_clear pen.attrs 16 }
    else if prm = 24 then sgr_go ps fuel (i + 1) { pen with attrs := attr_clear pen.attrs 2 }
    else if prm = 25 then sgr_go ps fuel (i + 1) { pen with attrs := attr_clear pen.attrs 32 }
    else if prm = 27 then sgr_go ps fuel (i + 1) { pen with attrs := attr_clear pen.attrs 4 }
    else if prm = 28 then sgr_go ps fuel (i + 1) { pen with attrs := attr_clear pen.attrs 64 }
    else if prm = 29 then sgr_go ps fuel (i + 1) { pen with attrs := attr_clear pen.attrs 128 }
    else if 30 ≤ prm ∧ prm ≤ 37 then sgr_go ps fuel (i + 1) { pen with fg := (prm : Int) - 30 }
    else if prm = 38 then
      if i + 1 < vte_params_len ps then
        let color_mode := vte_params_get_single ps (i + 1) 0
        if color_mode = 5 ∧ i + 2 < vte_params_len ps then
          sgr_go ps fuel (i + 3) { pen with fg := (vte_params_get_single ps (i + 2) 0 : Int) }
        else if color_mode = 2 ∧ i + 4 < vte_params_len ps then
          sgr_go ps fuel (i + 5)
            { pen with fg := (sgr_rgb (vte_params_get_single ps (i + 2) 0)
                (vte_params_get_single ps (i + 3) 0) (vte_params_get_single ps (i + 4) 0) : Int) }
        else sgr_go ps fuel (i + 1) pen
      else sgr_go ps fuel (i + 1) pen
    else if prm = 39 then sgr_go ps fuel (i + 1) { pen with fg := -1 }
    else if 40 ≤ prm ∧ prm ≤ 47 then sgr_go ps fuel (i + 1) { pen with bg := (prm : Int) - 40 }
    else if prm = 48 then
      if i + 1 < vte_params_len ps then
        let color_mode := vte_params_get_single ps (i + 1) 0
        if color_mode = 5 ∧ i + 2 < vte_params_len ps then
          sgr_go ps fuel (i + 3) { pen with bg := (vte_params_get_single ps (i + 2) 0 : Int) }
        else if color_mode = 2 ∧ i + 4 < vte_params_len ps then
          sgr_go ps fuel (i + 5)
            { pen with bg := (sgr_rgb (vte_params_get_single ps (i + 2) 0)
                (vte_params_get_single ps (i + 3) 0) (vte_params_get_single ps (i + 4) 0) : Int) }
        else sgr_go ps fuel (i + 1) pen
      else sgr_go ps fuel (i + 1) pen
    else if prm = 49 then sgr_go ps fuel (i + 1) { pen with bg := -1 }
    else if 90 ≤ prm ∧ prm ≤ 97 then
      sgr_go ps fuel (i + 1) { pen with fg := (prm : Int) - 90, attrs := pen.attrs ||| 1 }
    else if 100 ≤ prm ∧ prm ≤ 107 then sgr_go ps fuel (i + 1) { pen with bg := (prm : Int) - 100 }
    else sgr_go ps fuel (i + 1) pen
  else pen

/-- The SGR parameter loop, with the fuel the variant bounds. -/
def sgr_loop (ps : VteParams) (pen : SgrPen) : SgrPen :=
  sgr_go ps (vte_params_len ps) 0 pen

/-- DEC private mode assignment of the `h`/`l` handlers. -/
def dec_private_mode_set (m : TerminalModes) (mode : Nat) (v : Bool) : TerminalModes :=
  if mode = 1 then { m with application_cursor_keys := v }
  else if mode = 6 then { m with origin_mode := v }
  else if mode = 7 then { m with auto_wrap := v }
  else if mode = 25 then { m with cursor_visible := v }
  else if mode = 2004 then { m with bracketed_paste := v }
  else m

/-- ANSI mode assignment of the `h`/`l` handlers (mode 12 has the
reversed polarity of the source). -/
def ansi_mode_set (m : TerminalModes) (mode : Nat) (v : Bool) : TerminalModes :=
  if mode = 4 then { m with insert_mode := v }
  else if mode = 12 then { m with local_echo := !v }
  else if mode = 20 then { m with auto_wrap := v }
  else m

/-- The parameter loop of the `h`/`l` cases of `enhanced_csi_dispatch`
(the loop only ever writes mode fields). -/
def csi_modes (ps : VteParams) (intermediates : List Nat) (v : Bool)
    (m : TerminalModes) : TerminalModes :=
  (List.range (vte_params_len ps)).foldl
    (fun ms i =>
      let mode := vte_params_get_single ps i 0
      if intermediates.length > 0 ∧ intermediates.getD 0 0 = 0x3F then
        dec_private_mode_set ms mode v
      else ansi_mode_set ms mode v) m

/-- `enhanced_csi_dispatch`.  The final byte is matched by its character
code (A=65, B=66, C=67, D=68, E=69, F=70, G=71, H=72, I=73, J=74, K=75,
L=76, M=77, P=80, S=83, T=84, X=88, Z=90, commercial-at=64, d=100, f=102,
g=103, h=104, l=108, m=109, r=114, s=115, u=117). -/
def enhanced_csi_dispatch (p : Panel) (ps : VteParams) (intermediates : List Nat)
    (ignore : Bool) (action : Nat) : Panel :=
  if ignore then p
  else if action = 65 then
    let count : Int := vte_params_get_single ps 0 1
    { p with cursor_y := if p.cursor_y - count < 0 then 0 else p.cursor_y - count }
  else if action = 66 then
    let count : Int := vte_params_get_single ps 0 1
    { p with cursor_y := if p.cursor_y + count ≥ p.screen_height then p.screen_height - 1
             else p.cursor_y + count }
  else if action = 67 then
    let count : Int := vte_params_get_single ps 0 1
    { p with cursor_x := if p.cursor_x + count ≥ p.screen_width then p.screen_width - 1
             else p.cursor_x + count }
  else if action = 68 then
    let count : Int := vte_params_get_single ps 0 1
    { p with cursor_x := if p.cursor_x - count < 0 then 0 else p.cursor_x - count }
  else if action = 69 then
    let count : Int := vte_params_get_single ps 0 1
    { p with cursor_y := if p.cursor_y + count ≥ p.screen_height then p.screen_height - 1
             else p.cursor_y + count,
             cursor_x := 0 }
  else if action = 70 then
    let count : Int := vte_params_get_single ps 0 1
    { p with cursor_y := if p.cursor_y - count < 0 then 0 else p.cursor_y - count,
             cursor_x := 0 }
  else if action = 71 then
    let col : Int := (vte_params_get_single ps 0 1 : Int) - 1
    { p with cursor_x := if col < 0 then 0
             else if col ≥ p.screen_width then p.screen_width - 1 else col }
  else if action = 72 ∨ action = 102 then
    let row0 : Int := (vte_params_get_single ps 0 1 : Int) - 1
    let col : Int := (vte_params_get_single ps 1 1 : Int) - 1
    let row : Int := if p.modes.origin_mode then
        (if row0 + p.scroll_top > p.scroll_bottom then p.scroll_bottom else row0 + p.scroll_top)
      else row0
    { p with
      cursor_y := if row < 0 then 0
        else if row ≥ p.screen_height then p.screen_height - 1 else row,
      cursor_x := if col < 0 then 0
        else if col ≥ p.screen_width then p.screen_width - 1 else col }
  else if action = 73 then terminal_tab_forward p (vte_params_get_single ps 0 1)
  else if action = 74 then terminal_clear_screen p (vte_params_get_single ps 0 0)
  else if action = 75 then terminal_clear_line p (vte_params_get_single ps 0 0)
  else if action = 76 then terminal_insert_lines p (vte_params_get_single ps 0 1)
  else if action = 77 then terminal_delete_lines p (vte_params_get_single ps 0 1)
  else if action = 80 then terminal_delete_chars p (vte_params_get_single ps 0 1)
  else if action = 83 then terminal_scroll_up p (vte_params_get_single ps 0 1)
  else if action = 84 then terminal_scroll_down p (vte_params_get_single ps 0 1)
  else if action = 88 then
    let count : Int := vte_params_get_single ps 0 1
    if 0 ≤ p.cursor_y ∧ p.cursor_y < p.screen_height then
      { p with screen := modifyRow p.screen p.cursor_y.toNat (fun row =>
          row.mapIdx fun c cell =>
            if p.cursor_x ≤ (c : Int) ∧ (c : Int) < p.cursor_x + count
            then blank_cell p else cell) }
    else p
  else if action = 90 then terminal_tab_backward p (vte_params_get_single ps 0 1)
  else if action = 64 then terminal_insert_chars p (vte_params_get_single ps 0 1)
  else if action = 100 then
    let row0 : Int := (vte_params_get_single ps 0 1 : Int) - 1
    let row : Int := if p.modes.origin_mode then
        (if row0 + p.scroll_top > p.scroll_bottom then p.scroll_bottom else row0 + p.scroll_top)
      else row0
    { p with cursor_y := if row < 0 then 0
             else if row ≥ p.screen_height then p.screen_height - 1 else row }
  else if action = 103 then terminal_clear_tab_stop p (vte_params_get_single ps 0 0)
  else if action = 104 then { p with modes := csi_modes ps intermediates true p.modes }
  else if action = 108 then { p with modes := csi_modes ps intermediates false p.modes }
  else if action = 109 then
    if vte_params_len ps = 0 then { p with fg_color := -1, bg_color := -1, attrs := 0 }
    else
      let pen := sgr_loop ps ⟨p.fg_color, p.bg_color, p.attrs⟩
      { p with fg_color := pen.fg, bg_color := pen.bg, attrs := pen.attrs }
  else if action = 114 then
    let top : Int := (vte_params_get_single ps 0 1 : Int) - 1
    let bottom : Int :=
      (vte_params_get_single ps 1 ((p.screen_height % 65536).toNat) : Int) - 1
    if 0 ≤ top ∧ bottom < p.screen_height ∧ top < bottom then
      { p with
        scroll_top := top
        scroll_bottom := bottom
        cursor_x := 0
        cursor_y := if p.modes.origin_mode then top else 0 }
    else p
  else if action = 115 then terminal_save_cursor p
  else if action = 117 then terminal_restore_cursor p
  else p

/-- The charset selected by the final byte in the charset-designation
branch of `enhanced_esc_dispatch`. -/
def esc_designate_charset (byte : Nat) : Charset :=
  if byte = 0x30 then Charset.dec_special
  else if byte = 0x41 then Charset.uk
  else if byte = 0x42 then Charset.ascii
  else if byte = 0x34 then Charset.dutch
  else if byte = 0x35 then Charset.finnish
  else if byte = 0x43 ∨ byte = 0x52 then Charset.finnish
  else if byte = 0x51 then Charset.french_canadian
  else if byte = 0x4B then Charset.german
  else if byte = 0x59 then Charset.italian
  else if byte = 0x45 ∨ byte = 0x36 then Charset.norwegian_danish
  else if byte = 0x5A then Charset.spanish
  else if byte = 0x37 ∨ byte = 0x48 then Charset.swedish
  else if byte = 0x3D then Charset.swiss
  else Charset.ascii

/-- `enhanced_esc_dispatch`.  Finals by character code: 7=0x37, 8=0x38,
c=0x63, D=0x44, E=0x45, H=0x48, M=0x4D, Z=0x5A, equals=0x3D, gt=0x3E,
N=0x4E, O=0x4F; anything else with exactly one intermediate designates a
charset for G0 (intermediate 0x28) or G1 (0x29). -/
def enhanced_esc_dispatch (p : Panel) (intermediates : List Nat)
    (ignore : Bool) (byte : Nat) : Panel :=
  if ignore then p
  else if byte = 0x37 then terminal_save_cursor p
  else if byte = 0x38 then terminal_restore_cursor p
  else if byte = 0x63 then terminal_panel_reset p
  else if byte = 0x44 then
    if p.cursor_y ≥ p.scroll_bottom then terminal_scroll_up p 1
    else { p with cursor_y := p.cursor_y + 1 }
  else if byte = 0x45 then
    let p1 := { p with cursor_x := 0 }
    if p1.cursor_y ≥ p1.scroll_bottom then terminal_scroll_up p1 1
    else { p1 with cursor_y := p1.cursor_y + 1 }
  else if byte = 0x48 then terminal_set_tab_stop p
  else if byte = 0x4D then
    if p.cursor_y ≤ p.scroll_top then terminal_scroll_down p 1
    else { p with cursor_y := p.cursor_y - 1 }
  else if byte = 0x5A then p
  else if byte = 0x3D then { p with modes := { p.modes with application_keypad := true } }
  else if byte = 0x3E then { p with modes := { p.modes with application_keypad := false } }
  else if byte = 0x4E ∨ byte = 0x4F then p
  else if intermediates.length = 1 then
    let charset := esc_designate_charset byte
    let i0 := intermediates.getD 0 0
    if i0 = 0x28 then { p with g0_charset := charset }
    else if i0 = 0x29 then { p with g1_charset := charset }
    else p
  else p

/-- The events the parser can deliver through the perform callbacks. -/
inductive VteEvent where
  | print (codepoint : Nat)
  | execute (byte : Nat)
  | csi_dispatch (params : VteParams) (intermediates : List Nat) (ignore : Bool) (action : Nat)
  | esc_dispatch (intermediates : List Nat) (ignore : Bool) (byte : Nat)
  | osc_dispatch (params : List (List Nat)) (bell_terminated : Bool)
  | hook (params : VteParams) (intermediates : List Nat) (ignore : Bool) (action : Nat)
  | put (byte : Nat)
  | unhook
  deriving DecidableEq, Repr

/-- `vte_parser_t` (the unused UTF-8 prefix fields of the header, which
no function of vte_parser.c ever reads or writes, are omitted). -/
structure VteParser where
  state : VteState
  params : VteParams
  current_param : Nat
  intermediates : List Nat
  ignoring : Bool
  osc_raw : List Nat
  osc_params : List (Nat × Nat)
  deriving DecidableEq, Repr

/-- `vte_parser_init`. -/
def vte_parser_init : VteParser :=
  { state := VteState.ground
    params := vte_params_clear
    current_param := 0
    intermediates := []
    ignoring := false
    osc_raw := []
    osc_params := [] }

/-- `vte_reset_params`. -/
def vte_reset_params (p : VteParser) : VteParser :=
  { p with intermediates := [], ignoring := false, current_param := 0, params := vte_params_clear }

/-- `vte_action_collect`. -/
def vte_action_collect (p : VteParser) (byte : Nat) : VteParser :=
  if p.intermediates.length ≥ VTE_MAX_INTERMEDIATES then { p with ignoring := true }
  else { p with intermediates := p.intermediates ++ [byte] }

/-- `vte_action_param`. -/
def vte_action_param (p : VteParser) : VteParser :=
  if vte_params_is_full p.params then { p with ignoring := true }
  else { p with params := vte_params_push p.params p.current_param, current_param := 0 }

/-- `vte_action_subparam`. -/
def vte_action_subparam (p : VteParser) : VteParser :=
  if vte_params_is_full p.params then { p with ignoring := true }
  else { p with params := vte_params_extend p.params p.current_param, current_param := 0 }

/-- `vte_action_paramnext`: decimal accumulation saturating at 65535.
`digit` is the uint16 value of `byte - '0'`. -/
def vte_action_paramnext (p : VteParser) (byte : Nat) : VteParser :=
  if vte_params_is_full p.params then { p with ignoring := true }
  else
    let digit := (byte + 65536 - 0x30) % 65536
    if p.current_param ≤ (65535 - digit) / 10 then
      { p with current_param := p.current_param * 10 + digit }
    else { p with current_param := 65535 }

/-- `vte_action_csi_dispatch`. -/
def vte_action_csi_dispatch (p : VteParser) (byte : Nat) : VteParser × List VteEvent :=
  let p1 := if ¬ vte_params_is_full p.params then
      { p with params := vte_params_push p.params p.current_param }
    else p
  ({ p1 with state := VteState.ground },
   [VteEvent.csi_dispatch p1.params p1.intermediates p1.ignoring byte])

/-- `vte_action_esc_dispatch`. -/
def vte_action_esc_dispatch (p : VteParser) (byte : Nat) : VteParser × List VteEvent :=
  ({ p with state := VteState.ground },
   [VteEvent.esc_dispatch p.intermediates p.ignoring byte])

/-- `vte_action_hook`. -/
def vte_action_hook (p : VteParser) (byte : Nat) : VteParser × List VteEvent :=
  let p1 := if ¬ vte_params_is_full p.params then
      { p with params := vte_params_push p.params p.current_param }
    else p
  ({ p1 with state := VteState.dcs_passthrough },
   [VteEvent.hook p1.params p1.intermediates p1.ignoring byte])

/-- `vte_action_osc_put`. -/
def vte_action_osc_put (p : VteParser) (byte : Nat) : VteParser :=
  if p.osc_raw.length < VTE_MAX_OSC_RAW then { p with osc_raw := p.osc_raw ++ [byte] } else p

/-- `vte_action_osc_put_param`. -/
def vte_action_osc_put_param (p : VteParser) : VteParser :=
  if p.osc_params.length ≥ VTE_MAX_OSC_PARAMS then p
  else
    let idx := p.osc_raw.length
    if p.osc_params.length = 0 then { p with osc_params := [(0, idx)] }
    else { p with osc_params := p.osc_params ++ [((p.osc_params.getLast?.getD (0, 0)).2, idx)] }

/-- `vte_osc_end`: finalize the pending parameter, deliver the dispatch
(with the raw-buffer slices of the recorded offset pairs and
`bell_terminated = (byte == 0x07)`), reset the OSC buffers. -/
def vte_osc_end (p : VteParser) (byte : Nat) : VteParser × List VteEvent :=
  let p1 := vte_action_osc_put_param p
  let evs := if p1.osc_params.length > 0 then
      [VteEvent.osc_dispatch
        (p1.osc_params.map fun se => (p1.osc_raw.drop se.1).take (se.2 - se.1))
        (byte = 0x07)]
    else []
  ({ p1 with osc_raw := [], osc_params := [] }, evs)

/-- `vte_anywhere`. -/
def vte_anywhere (p : VteParser) (byte : Nat) : VteParser × List VteEvent :=
  if byte = 0x18 ∨ byte = 0x1A then
    ({ p with state := VteState.ground }, [VteEvent.execute byte])
  else if byte = 0x1B then
    ({ vte_reset_params p with state := VteState.escape }, [])
  else (p, [])

/-- `vte_advance_escape`. -/
def vte_advance_escape (p : VteParser) (b : Nat) : VteParser × List VteEvent :=
  if b ≤ 0x17 ∨ b = 0x19 ∨ (0x1C ≤ b ∧ b ≤ 0x1F) then (p, [VteEvent.execute b])
  else if 0x20 ≤ b ∧ b ≤ 0x2F then
    ({ vte_action_collect p b with state := VteState.escape_intermediate }, [])
  else if (0x30 ≤ b ∧ b ≤ 0x4F) ∨ (0x51 ≤ b ∧ b ≤ 0x57) ∨ b = 0x59 ∨ b = 0x5A ∨ b = 0x5C ∨
          (0x60 ≤ b ∧ b ≤ 0x7E) then
    vte_action_esc_dispatch p b
  else if b = 0x50 then ({ vte_reset_params p with state := VteState.dcs_entry }, [])
  else if b = 0x58 ∨ b = 0x5E ∨ b = 0x5F then
    ({ p with state := VteState.sos_pm_apc_string }, [])
  else if b = 0x5B then ({ vte_reset_params p with state := VteState.csi_entry }, [])
  else if b = 0x5D then
    ({ p with osc_raw := [], osc_params := [], state := VteState.osc_string }, [])
  else vte_anywhere p b

/-- `vte_advance_csi_entry`. -/
def vte_advance_csi_entry (p : VteParser) (b : Nat) : VteParser × List VteEvent :=
  if b ≤ 0x17 ∨ b = 0x19 ∨ (0x1C ≤ b ∧ b ≤ 0x1F) then (p, [VteEvent.execute b])
  else if 0x20 ≤ b ∧ b ≤ 0x2F then
    ({ vte_action_collect p b with state := VteState.csi_intermediate }, [])
  else if 0x30 ≤ b ∧ b ≤ 0x39 then
    ({ vte_action_paramnext p b with state := VteState.csi_param }, [])
  else if b = 0x3A then ({ vte_action_subparam p with state := VteState.csi_param }, [])
  else if b = 0x3B then ({ vte_action_param p with state := VteState.csi_param }, [])
  else if 0x3C ≤ b ∧ b ≤ 0x3F then
    ({ vte_action_collect p b with state := VteState.csi_param }, [])
  else if 0x40 ≤ b ∧ b ≤ 0x7E then vte_action_csi_dispatch p b
  else vte_anywhere p b

/-- `vte_advance_csi_param`. -/
def vte_advance_csi_param (p : VteParser) (b : Nat) : VteParser × List VteEvent :=
  if b ≤ 0x17 ∨ b = 0x19 ∨ (0x1C ≤ b ∧ b ≤ 0x1F) then (p, [VteEvent.execute b])
  else if 0x20 ≤ b ∧ b ≤ 0x2F then
    ({ vte_action_collect p b with state := VteState.csi_intermediate }, [])
  else if 0x30 ≤ b ∧ b ≤ 0x39 then (vte_action_paramnext p b, [])
  else if b = 0x3A then (vte_action_subparam p, [])
  else if b = 0x3B then (vte_action_param p, [])
  else if 0x3C ≤ b ∧ b ≤ 0x3F then ({ p with state := VteState.csi_ignore }, [])
  else if 0x40 ≤ b ∧ b ≤ 0x7E then vte_action_csi_dispatch p b
  else if b = 0x7F then (p, [])
  else vte_anywhere p b

/-- `vte_advance_escape_intermediate`. -/
def vte_advance_escape_intermediate (p : VteParser) (b : Nat) : VteParser × List VteEvent :=
  if b ≤ 0x17 ∨ b = 0x19 ∨ (0x1C ≤ b ∧ b ≤ 0x1F) then (p, [VteEvent.execute b])
  else if 0x20 ≤ b ∧ b ≤ 0x2F then (vte_action_collect p b, [])
  else if 0x30 ≤ b ∧ b ≤ 0x7E then vte_action_esc_dispatch p b
  else vte_anywhere p b

/-- `vte_advance_csi_intermediate`. -/
def vte_advance_csi_intermediate (p : VteParser) (b : Nat) : VteParser × List VteEvent :=
  if b ≤ 0x17 ∨ b = 0x19 ∨ (0x1C ≤ b ∧ b ≤ 0x1F) then (p, [VteEvent.execute b])
  else if 0x20 ≤ b ∧ b ≤ 0x2F then (vte_action_collect p b, [])
  else if 0x40 ≤ b ∧ b ≤ 0x7E then vte_action_csi_dispatch p b
  else if b = 0x7F then (p, [])
  else vte_anywhere p b

/-- `vte_advance_csi_ignore`. -/
def vte_advance_csi_ignore (p : VteParser) (b : Nat) : VteParser × List VteEvent :=
  if b ≤ 0x17 ∨ b = 0x19 ∨ (0x1C ≤ b ∧ b ≤ 0x1F) then (p, [VteEvent.execute b])
  else if 0x40 ≤ b ∧ b ≤ 0x7E then ({ p with state := VteState.ground }, [])
  else if b = 0x7F then (p, [])
  else vte_anywhere p b

/-- `vte_advance_dcs_entry`. -/
def vte_advance_dcs_entry (p : VteParser) (b : Nat) : VteParser × List VteEvent :=
  if b ≤ 0x17 ∨ b = 0x19 ∨ (0x1C ≤ b ∧ b ≤ 0x1F) then (p, [])
  else if 0x20 ≤ b ∧ b ≤ 0x2F then
    ({ vte_action_collect p b with state := VteState.dcs_intermediate }, [])
  else if 0x30 ≤ b ∧ b ≤ 0x39 then
    ({ vte_action_paramnext p b with state := VteState.dcs_param }, [])
  else if b = 0x3A then ({ vte_action_subparam p with state := VteState.dcs_param }, [])
  else if b = 0x3B then ({ vte_action_param p with state := VteState.dcs_param }, [])
  else if 0x3C ≤ b ∧ b ≤ 0x3F then
    ({ vte_action_collect p b with state := VteState.dcs_param }, [])
  else if 0x40 ≤ b ∧ b ≤ 0x7E then vte_action_hook p b
  else vte_anywhere p b

/-- `vte_advance_dcs_param`. -/
def vte_advance_dcs_param (p : VteParser) (b : Nat) : VteParser × List VteEvent :=
  if b ≤ 0x17 ∨ b = 0x19 ∨ (0x1C ≤ b ∧ b ≤ 0x1F) then (p, [])
  else if 0x20 ≤ b ∧ b ≤ 0x2F then
    ({ vte_action_collect p b with state := VteState.dcs_intermediate }, [])
  else if 0x30 ≤ b ∧ b ≤ 0x39 then (vte_action_paramnext p b, [])
  else if b = 0x3A then (vte_action_subparam p, [])
  else if b = 0x3B then (vte_action_param p, [])
  else if 0x3C ≤ b ∧ b ≤ 0x3F then ({ p with state := VteState.dcs_ignore }, [])
  else if 0x40 ≤ b ∧ b ≤ 0x7E then vte_action_hook p b
  else if b = 0x7F then (p, [])
  else vte_anywhere p b

/-- `vte_advance_dcs_intermediate`. -/
def vte_advance_dcs_intermediate (p : VteParser) (b : Nat) : VteParser × List VteEvent :=
  if b ≤ 0x17 ∨ b = 0x19 ∨ (0x1C ≤ b ∧ b ≤ 0x1F) then (p, [])
  else if 0x20 ≤ b ∧ b ≤ 0x2F then (vte_action_collect p b, [])
  else if 0x40 ≤ b ∧ b ≤ 0x7E then vte_action_hook p b
  else if b = 0x7F then (p, [])
  else vte_anywhere p b

/-- `vte_advance_dcs_passthrough`. -/
def vte_advance_dcs_passthrough (p : VteParser) (b : Nat) : VteParser × List VteEvent :=
  if b ≤ 0x17 ∨ b = 0x19 ∨ (0x1C ≤ b ∧ b ≤ 0x1F) then (p, [VteEvent.put b])
  else if b = 0x18 ∨ b = 0x1A then
    ({ p with state := VteState.ground }, [VteEvent.unhook, VteEvent.execute b])
  else if b = 0x1B then
    ({ vte_reset_params p with state := VteState.escape }, [VteEvent.unhook])
  else if 0x20 ≤ b ∧ b ≤ 0x7E then (p, [VteEvent.put b])
  else if b = 0x7F then (p, [])
  else if b = 0x9C then ({ p with state := VteState.ground }, [VteEvent.unhook])
  else (p, [VteEvent.put b])

/-- `vte_advance_dcs_ignore`. -/
def vte_advance_dcs_ignore (p : VteParser) (b : Nat) : VteParser × List VteEvent :=
  if b ≤ 0x17 ∨ b = 0x19 ∨ (0x1C ≤ b ∧ b ≤ 0x1F) then (p, [])
  else if b = 0x18 ∨ b = 0x1A then
    ({ p with state := VteState.ground }, [VteEvent.execute b])
  else if b = 0x1B then ({ vte_reset_params p with state := VteState.escape }, [])
  else if 0x20 ≤ b ∧ b ≤ 0x7F then (p, [])
  else if b = 0x9C then ({ p with state := VteState.ground }, [])
  else vte_anywhere p b

/-- `vte_advance_sos_pm_apc_string`. -/
def vte_advance_sos_pm_apc_string (p : VteParser) (b : Nat) : VteParser × List VteEvent :=
  if b ≤ 0x17 ∨ b = 0x19 ∨ (0x1C ≤ b ∧ b ≤ 0x1F) then (p, [])
  else if b = 0x18 ∨ b = 0x1A then
    ({ p with state := VteState.ground }, [VteEvent.execute b])
  else if b = 0x1B then ({ vte_reset_params p with state := VteState.escape }, [])
  else if 0x20 ≤ b ∧ b ≤ 0x7F then (p, [])
  else if b = 0x9C then ({ p with state := VteState.ground }, [])
  else vte_anywhere p b

/-- `vte_advance_osc_string`: note there is no case for the byte 0x9C,
which therefore falls through to the default `vte_action_osc_put`. -/
def vte_advance_osc_string (p : VteParser) (b : Nat) : VteParser × List VteEvent :=
  if b ≤ 0x06 ∨ (0x08 ≤ b ∧ b ≤ 0x17) ∨ b = 0x19 ∨ (0x1C ≤ b ∧ b ≤ 0x1F) then (p, [])
  else if b = 0x07 then
    let r := vte_osc_end p b
    ({ r.1 with state := VteState.ground }, r.2)
  else if b = 0x18 ∨ b = 0x1A then
    let r := vte_osc_end p b
    ({ r.1 with state := VteState.ground }, r.2 ++ [VteEvent.execute b])
  else if b = 0x1B then
    let r := vte_osc_end p b
    ({ vte_reset_params r.1 with state := VteState.escape }, r.2)
  else if b = 0x3B then (vte_action_osc_put_param p, [])
  else (vte_action_osc_put p b, [])

/-- One byte in a non-GROUND state: the inner switch of
`vte_parser_advance`. -/
def vte_step (p : VteParser) (b : Nat) : VteParser × List VteEvent :=
  match p.state with
  | VteState.escape => vte_advance_escape p b
  | VteState.escape_intermediate => vte_advance_escape_intermediate p b
  | VteState.csi_entry => vte_advance_csi_entry p b
  | VteState.csi_param => vte_advance_csi_param p b
  | VteState.csi_intermediate => vte_advance_csi_intermediate p b
  | VteState.csi_ignore => vte_advance_csi_ignore p b
  | VteState.dcs_entry => vte_advance_dcs_entry p b
  | VteState.dcs_param => vte_advance_dcs_param p b
  | VteState.dcs_intermediate => vte_advance_dcs_intermediate p b
  | VteState.dcs_passthrough => vte_advance_dcs_passthrough p b
  | VteState.dcs_ignore => vte_advance_dcs_ignore p b
  | VteState.osc_string => vte_advance_osc_string p b
  | VteState.sos_pm_apc_string => vte_advance_sos_pm_apc_string p b
  | VteState.ground => vte_anywhere p b

/-- The byte loop of `vte_parser_advance`.  In GROUND it takes the fast
path of `vte_advance_ground`, whose UTF-8 lookahead is bounded by the end
of the current feed slice: a leading byte whose sequence is truncated at
the end of the slice prints U+FFFD and consumes one byte.  Every step
consumes at least one byte, so a fuel of `data.length` or more makes this
exactly the C loop (`vte_advance_go_fuel` below). -/
def vte_advance_go (fuel : Nat) (p : VteParser) (data : List Nat) : VteParser × List VteEvent :=
  match fuel, data with
  | _, [] => (p, [])
  | 0, _ => (p, [])
  | fuel + 1, b :: rest =>
    if p.state = VteState.ground then
      if b = 0x1B then
        vte_advance_go fuel { vte_reset_params p with state := VteState.escape } rest
      else if 0x80 ≤ b then
        match vte_utf8_char_len b, rest with
        | 2, b1 :: rest2 =>
          let r := vte_advance_go fuel p rest2
          (r.1, VteEvent.print (vte_utf8_decode [b, b1]) :: r.2)
        | 3, b1 :: b2 :: rest3 =>
          let r := vte_advance_go fuel p rest3
          (r.1, VteEvent.print (vte_utf8_decode [b, b1, b2]) :: r.2)
        | 4, b1 :: b2 :: b3 :: rest4 =>
          let r := vte_advance_go fuel p rest4
          (r.1, VteEvent.print (vte_utf8_decode [b, b1, b2, b3]) :: r.2)
        | _, _ =>
          let r := vte_advance_go fuel p rest
          (r.1, VteEvent.print 0xFFFD :: r.2)
      else if 0x20 ≤ b ∧ b ≤ 0x7E then
        let r := vte_advance_go fuel p rest
        (r.1, VteEvent.print b :: r.2)
      else
        let r := vte_advance_go fuel p rest
        (r.1, VteEvent.execute b :: r.2)
    else
      let s := vte_step p b
      let r := vte_advance_go fuel s.1 rest
      (r.1, s.2 ++ r.2)

/-- `vte_parser_advance`: the streaming entry point, producing the event
sequence. -/
def vte_parser_advance (p : VteParser) (data : List Nat) : VteParser × List VteEvent :=
  vte_advance_go data.length p data

/-- Fold the enhanced perform callbacks over one event
(`enhanced_perform` leaves `osc_dispatch`, `hook`, `put`, `unhook`
NULL). -/
def apply_event (p : Panel) (e : VteEvent) : Panel :=
  match e with
  | VteEvent.print cp => enhanced_print p cp
  | VteEvent.execute b => enhanced_execute p b
  | VteEvent.csi_dispatch ps ints ign a => enhanced_csi_dispatch p ps ints ign a
  | VteEvent.esc_dispatch ints ign b => enhanced_esc_dispatch p ints ign b
  | VteEvent.osc_dispatch _ _ => p
  | VteEvent.hook _ _ _ _ => p
  | VteEvent.put _ => p
  | VteEvent.unhook => p

/-- Apply an event list in order. -/
def apply_events (p : Panel) (evs : List VteEvent) : Panel := evs.foldl apply_event p

/-- Feed one byte slice into a panel+parser pair. -/
def vte_feed (st : Panel × VteParser) (data : List Nat) : Panel × VteParser :=
  let r := vte_parser_advance st.2 data
  (apply_events st.1 r.2, r.1)

/-- Feed consecutive slices. -/
def vte_feed_slices (st : Panel × VteParser) (slices : List (List Nat)) : Panel × VteParser :=
  slices.foldl vte_feed st

/-- The event sequence of feeding consecutive slices. -/
def vte_advance_slices (p : VteParser) (slices : List (List Nat)) : VteParser × List VteEvent :=
  slices.foldl (fun acc s =>
    let r := vte_parser_advance acc.1 s
    (r.1, acc.2 ++ r.2)) (p, [])

/-- A freshly constructed panel of the given dimensions: blank cells
(space, default colors), then `terminal_panel_init`, as the host setup
does. -/
def mk_panel (width height : Nat) : Panel :=
  terminal_panel_init
    { screen_width := 0, screen_height := 0, cursor_x := 0, cursor_y := 0,
      saved_cursor_x := 0, saved_cursor_y := 0, scroll_top := 0, scroll_bottom := 0,
      fg_color := 0, bg_color := 0, attrs := 0,
      saved_fg_color := 0, saved_bg_color := 0, saved_attrs := 0,
      g0_charset := Charset.ascii, g1_charset := Charset.ascii, using_g1 := false,
      modes := { application_cursor_keys := false, application_keypad := false,
                 auto_wrap := false, origin_mode := false, insert_mode := false,
                 local_echo := false, cursor_visible := false, reverse_video := false,
                 bracketed_paste := false },
      tab_stops := [],
      screen := List.replicate height (List.replicate width ⟨32, -1, -1, 0⟩) }
    width height

/-- The read-only cell accessor of the renderer interface. -/
def screen_cell (p : Panel) (row col : Nat) : Cell := (p.screen.getD row []).getD col ⟨0, 0, 0, 0⟩

/-- The 40 by 10 panel of the end-to-end scenarios of the test suite. -/
def scenario_st : Panel × VteParser := (mk_panel 40 10, vte_parser_init)

example : (vte_feed scenario_st [72, 101, 108, 108, 111]).1.cursor_x = 5 := by decide
example :
    let p := (vte_feed scenario_st [0x1B, 0x5B, 0x33, 0x3B, 0x31, 0x30, 0x48, 0x2A]).1
    (screen_cell p 2 9).codepoint = 42 ∧ p.cursor_x = 10 ∧ p.cursor_y = 2 := by decide
example : (vte_feed scenario_st [0x1B, 0x5B, 0x33, 0x38, 0x3B, 0x35, 0x3B, 0x31, 0x39, 0x36, 0x6D]).1.fg_color = 196 := by decide
example : (vte_feed scenario_st [0x1B, 0x5B, 0x33, 0x38, 0x3A, 0x35, 0x3A, 0x31, 0x39, 0x36, 0x6D]).1.fg_color = -1 := by decide
example :
    let p := (vte_feed scenario_st [65, 9, 66]).1
    p.cursor_x = 9 ∧ (screen_cell p 0 8).codepoint = 66 := by decide
example :
    let p := (vte_feed scenario_st [0x1B, 0x28, 0x30, 0x71, 0x71, 0x71, 0x1B, 0x28, 0x42]).1
    (screen_cell p 0 0).codepoint = 0x2500 ∧ (screen_cell p 0 2).codepoint = 0x2500 := by decide
example :
    let p := (vte_feed scenario_st [0x1B, 0x5B, 0x32, 0x3B, 0x34, 0x72]).1
    p.scroll_top = 1 ∧ p.scroll_bottom = 3 ∧ p.cursor_x = 0 ∧ p.cursor_y = 0 := by decide
example :
    let p := (vte_feed scenario_st [0x1B, 0x5B, 0x35, 0x3B, 0x31, 0x30, 0x48,
      0x1B, 0x5B, 0x33, 0x31, 0x6D, 0x52, 0x65, 0x64, 0x1B, 0x5B, 0x73,
      0x1B, 0x5B, 0x31, 0x3B, 0x31, 0x48, 0x1B, 0x5B, 0x33, 0x32, 0x6D,
      0x47, 0x72, 0x65, 0x65, 0x6E, 0x1B, 0x5B, 0x75]).1
    p.cursor_x = 12 ∧ p.cursor_y = 4 ∧ p.fg_color = 1 := by decide
example : (vte_parser_advance vte_parser_init [0xC3, 0xA9]).2 = [VteEvent.print 0xE9] := by decide
example : (vte_advance_slices vte_parser_init [[0xC3], [0xA9]]).2 =
    [VteEvent.print 0xFFFD, VteEvent.print 0xFFFD] := by decide
example :
    let r := vte_parser_advance vte_parser_init [0x1B, 0x5D, 0x61, 0x9C]
    r.1.state = VteState.osc_string ∧ r.1.osc_raw = [0x61, 0x9C] ∧ r.2 = [] := by decide
example :
    (vte_parser_advance vte_parser_init [0x1B, 0x5D, 0x30, 0x3B, 0x68, 0x69, 0x07]).2 =
    [VteEvent.osc_dispatch [[0x30], [0x68, 0x69]] true] := by decide
example :
    let p := (vte_feed scenario_st [76, 105, 110, 101, 49, 10, 76, 105, 110, 101, 50]).1
    p.cursor_x = 5 ∧ p.cursor_y = 1 ∧ (screen_cell p 1 0).codepoint = 76 := by decide
example :
    let p := (vte_feed (mk_panel 4 5, vte_parser_init)
      [0x1B, 0x5B, 0x31, 0x3B, 0x32, 0x72, 0x1B, 0x5B, 0x34, 0x3B, 0x31, 0x48, 0x0A]).1
    p.cursor_y = 3 := by decide

/-! ### Frame lemmas: operations that only write the grid -/

theorem terminal_clear_screen_screen_only (p : Panel) (mode : Nat) :
    ∃ s, terminal_clear_screen p mode = { p with screen := s } := ⟨_, rfl⟩

theorem terminal_clear_line_screen_only (p : Panel) (mode : Nat) :
    ∃ s, terminal_clear_line p mode = { p with screen := s } := by
  unfold terminal_clear_line
  split
  · exact ⟨p.screen, rfl⟩
  · exact ⟨_, rfl⟩

theorem terminal_scroll_up_screen_only (p : Panel) (lines : Int) :
    ∃ s, terminal_scroll_up p lines = { p with screen := s } := by
  unfold terminal_scroll_up
  repeat' split
  all_goals exact ⟨_, rfl⟩

theorem terminal_scroll_down_screen_only (p : Panel) (lines : Int) :
    ∃ s, terminal_scroll_down p lines = { p with screen := s } := by
  unfold terminal_scroll_down
  repeat' split
  all_goals exact ⟨_, rfl⟩

theorem terminal_insert_lines_screen_only (p : Panel) (count : Int) :
    ∃ s, terminal_insert_lines p count = { p with screen := s } := by
  unfold terminal_insert_lines
  repeat' split
  all_goals exact ⟨_, rfl⟩

theorem terminal_delete_lines_screen_only (p : Panel) (count : Int) :
    ∃ s, terminal_delete_lines p count = { p with screen := s } := by
  unfold terminal_delete_lines
  repeat' split
  all_goals exact ⟨_, rfl⟩

theorem terminal_insert_chars_screen_only (p : Panel) (count : Int) :
    ∃ s, terminal_insert_chars p count = { p with screen := s } := by
  unfold terminal_insert_chars
  repeat' split
  all_goals exact ⟨_, rfl⟩

theorem terminal_delete_chars_screen_only (p : Panel) (count : Int) :
    ∃ s, terminal_delete_chars p count = { p with screen := s } := by
  unfold terminal_delete_chars
  repeat' split
  all_goals exact ⟨_, rfl⟩

/-! ### The panel invariant -/

/-- The state invariant of a reachable panel: positive dimensions (at
least two rows), cursor and saved cursor inside the grid, and a valid
scrolling region. -/
def PanelInv (p : Panel) : Prop :=
  0 < p.screen_width ∧ 2 ≤ p.screen_height ∧
  0 ≤ p.cursor_x ∧ p.cursor_x < p.screen_width ∧
  0 ≤ p.cursor_y ∧ p.cursor_y < p.screen_height ∧
  0 ≤ p.saved_cursor_x ∧ p.saved_cursor_x < p.screen_width ∧
  0 ≤ p.saved_cursor_y ∧ p.saved_cursor_y < p.screen_height ∧
  0 ≤ p.scroll_top ∧ p.scroll_top < p.scroll_bottom ∧ p.scroll_bottom < p.screen_height

instance (p : Panel) : Decidable (PanelInv p) := by unfold PanelInv; infer_instance

theorem PanelInv_screen_update (p : Panel) (s : List (List Cell)) :
    PanelInv { p with screen := s } ↔ PanelInv p := Iff.rfl

/-! ### Tab movement bounds -/

theorem tab_scan_forward_go_ge (p : Panel) (fuel : Nat) :
    ∀ t, t ≤ tab_scan_forward_go p fuel t := by
  induction fuel with
  | zero => intro t; simp [tab_scan_forward_go]
  | succ f ih =>
    intro t
    simp only [tab_scan_forward_go]
    split
    · exact le_trans (by omega) (ih (t + 1))
    · exact le_refl t

theorem tab_scan_forward_ge (p : Panel) (t : Int) : t ≤ tab_scan_forward p t :=
  tab_scan_forward_go_ge p _ t

theorem terminal_tab_forward_x_bounds (p : Panel) (count : Nat) :
    ∀ x, 0 ≤ x → x < p.screen_width →
      0 ≤ terminal_tab_forward_x p x count ∧ terminal_tab_forward_x p x count < p.screen_width := by
  induction count with
  | zero => intro x hx hxw; exact ⟨hx, hxw⟩
  | succ c ih =>
    intro x hx hxw
    simp only [terminal_tab_forward_x]
    split
    · rename_i hlt
      exact ih _ (le_trans (by omega) (tab_scan_forward_ge p (x + 1))) hlt
    · constructor <;> omega

theorem tab_scan_backward_go_le (p : Panel) (fuel : Nat) :
    ∀ t, tab_scan_backward_go p fuel t ≤ t := by
  induction fuel with
  | zero => intro t; simp [tab_scan_backward_go]
  | succ f ih =>
    intro t
    simp only [tab_scan_backward_go]
    split
    · exact le_trans (ih (t - 1)) (by omega)
    · exact le_refl t

theorem tab_scan_backward_le (p : Panel) (t : Int) : tab_scan_backward p t ≤ t :=
  tab_scan_backward_go_le p _ t

theorem terminal_tab_backward_x_bounds (p : Panel) (count : Nat) :
    ∀ x, 0 ≤ x → x < p.screen_width → 0 < p.screen_width →
      0 ≤ terminal_tab_backward_x p x count ∧
      terminal_tab_backward_x p x count < p.screen_width := by
  induction count with
  | zero => intro x hx hxw _; exact ⟨hx, hxw⟩
  | succ c ih =>
    intro x hx hxw hw
    simp only [terminal_tab_backward_x]
    split
    · rename_i hge
      have hle := tab_scan_backward_le p (x - 1)
      exact ih _ hge (by omega) hw
    · constructor <;> omega

theorem enhanced_execute_inv (p : Panel) (b : Nat) (h : PanelInv p) :
    PanelInv (enhanced_execute p b) := by
  have h0 := h
  obtain ⟨hw, hh, hx0, hxw, hy0, hyh, hsx0, hsxw, hsy0, hsyh, ht0, htb, hbh⟩ := h
  delta enhanced_execute
  by_cases h1 : b = 0x07
  · rw [if_pos h1]; exact h0
  rw [if_neg h1]
  by_cases h2 : b = 0x08
  · rw [if_pos h2]
    by_cases hx : p.cursor_x > 0
    · rw [if_pos hx]; unfold PanelInv; dsimp only; omega
    · rw [if_neg hx]; exact h0
  rw [if_neg h2]
  by_cases h3 : b = 0x09
  · rw [if_pos h3]
    have hb := terminal_tab_forward_x_bounds p 1 p.cursor_x hx0 hxw
    delta terminal_tab_forward
    unfold PanelInv; dsimp only; omega
  rw [if_neg h3]
  by_cases h4 : b = 0x0A ∨ b = 0x0B ∨ b = 0x0C
  · rw [if_pos h4]
    dsimp only
    by_cases hc : p.cursor_y ≥ p.scroll_bottom
    · rw [if_pos hc]
      obtain ⟨s, hs⟩ := terminal_scroll_up_screen_only { p with cursor_x := 0 } 1
      rw [hs]; unfold PanelInv; dsimp only; omega
    · rw [if_neg hc]; unfold PanelInv; dsimp only; omega
  rw [if_neg h4]
  by_cases h5 : b = 0x0D
  · rw [if_pos h5]; unfold PanelInv; dsimp only; omega
  rw [if_neg h5]
  by_cases h6 : b = 0x0E
  · rw [if_pos h6]; exact h0
  rw [if_neg h6]
  by_cases h7 : b = 0x0F
  · rw [if_pos h7]; exact h0
  rw [if_neg h7]
  by_cases h8 : b = 0x84
  · rw [if_pos h8]
    by_cases hc : p.cursor_y ≥ p.scroll_bottom
    · rw [if_pos hc]
      obtain ⟨s, hs⟩ := terminal_scroll_up_screen_only p 1
      rw [hs]; unfold PanelInv; dsimp only; omega
    · rw [if_neg hc]; unfold PanelInv; dsimp only; omega
  rw [if_neg h8]
  by_cases h9 : b = 0x85
  · rw [if_pos h9]
    dsimp only
    by_cases hc : p.cursor_y ≥ p.scroll_bottom
    · rw [if_pos hc]
      obtain ⟨s, hs⟩ := terminal_scroll_up_screen_only { p with cursor_x := 0 } 1
      rw [hs]; unfold PanelInv; dsimp only; omega
    · rw [if_neg hc]; unfold PanelInv; dsimp only; omega
  rw [if_neg h9]
  by_cases h10 : b = 0x88
  · rw [if_pos h10]
    delta terminal_set_tab_stop
    by_cases hc : 0 ≤ p.cursor_x ∧ p.cursor_x < 256
    · rw [if_pos hc]; unfold PanelInv; dsimp only; omega
    · rw [if_neg hc]; exact h0
  rw [if_neg h10]
  by_cases h11 : b = 0x8D
  · rw [if_pos h11]
    by_cases hc : p.cursor_y ≤ p.scroll_top
    · rw [if_pos hc]
      obtain ⟨s, hs⟩ := terminal_scroll_down_screen_only p 1
      rw [hs]; unfold PanelInv; dsimp only; omega
    · rw [if_neg hc]; unfold PanelInv; dsimp only; omega
  rw [if_neg h11]
  exact h0
theorem PanelInv_scroll_up (q : Panel) (n : Int) :
    PanelInv (terminal_scroll_up q n) ↔ PanelInv q := by
  obtain ⟨s, hs⟩ := terminal_scroll_up_screen_only q n
  rw [hs]
  exact Iff.rfl

theorem PanelInv_scroll_down (q : Panel) (n : Int) :
    PanelInv (terminal_scroll_down q n) ↔ PanelInv q := by
  obtain ⟨s, hs⟩ := terminal_scroll_down_screen_only q n
  rw [hs]
  exact Iff.rfl

theorem enhanced_print_inv (p : Panel) (cp : Nat) (h : PanelInv p) :
    PanelInv (enhanced_print p cp) := by
  have h0 := h
  obtain ⟨hw, hh, hx0, hxw, hy0, hyh, hsx0, hsxw, hsy0, hsyh, ht0, htb, hbh⟩ := h
  delta enhanced_print
  try dsimp only
  by_cases hg : 0 ≤ p.cursor_y ∧ p.cursor_y < p.screen_height ∧
      0 ≤ p.cursor_x ∧ p.cursor_x < p.screen_width
  · rw [if_pos hg]
    by_cases hins : p.modes.insert_mode
    · rw [if_pos hins]
      obtain ⟨s1, hs1⟩ := terminal_insert_chars_screen_only p 1
      rw [hs1]
      try dsimp only
      by_cases hwrap : p.cursor_x + 1 ≥ p.screen_width
      · rw [if_pos hwrap]
        by_cases haw : p.modes.auto_wrap
        · rw [if_pos haw]
          try dsimp only
          by_cases hyb : p.cursor_y + 1 > p.scroll_bottom
          · rw [if_pos hyb, PanelInv_scroll_up]
            unfold PanelInv; dsimp only; omega
          · rw [if_neg hyb]
            unfold PanelInv; dsimp only; omega
        · rw [if_neg haw]
          unfold PanelInv; dsimp only; omega
      · rw [if_neg hwrap]
        unfold PanelInv; dsimp only; omega
    · rw [if_neg hins]
      try dsimp only
      by_cases hwrap : p.cursor_x + 1 ≥ p.screen_width
      · rw [if_pos hwrap]
        by_cases haw : p.modes.auto_wrap
        · rw [if_pos haw]
          try dsimp only
          by_cases hyb : p.cursor_y + 1 > p.scroll_bottom
          · rw [if_pos hyb, PanelInv_scroll_up]
            unfold PanelInv; dsimp only; omega
          · rw [if_neg hyb]
            unfold PanelInv; dsimp only; omega
        · rw [if_neg haw]
          unfold PanelInv; dsimp only; omega
      · rw [if_neg hwrap]
        unfold PanelInv; dsimp only; omega
  · rw [if_neg hg]; exact h0
theorem PanelInv_clear_screen (q : Panel) (mode : Nat) :
    PanelInv (terminal_clear_screen q mode) ↔ PanelInv q := by
  obtain ⟨s, hs⟩ := terminal_clear_screen_screen_only q mode
  rw [hs]
  exact Iff.rfl

theorem PanelInv_clear_line (q : Panel) (mode : Nat) :
    PanelInv (terminal_clear_line q mode) ↔ PanelInv q := by
  obtain ⟨s, hs⟩ := terminal_clear_line_screen_only q mode
  rw [hs]
  exact Iff.rfl

theorem PanelInv_insert_lines (q : Panel) (n : Int) :
    PanelInv (terminal_insert_lines q n) ↔ PanelInv q := by
  obtain ⟨s, hs⟩ := terminal_insert_lines_screen_only q n
  rw [hs]
  exact Iff.rfl

theorem PanelInv_delete_lines (q : Panel) (n : Int) :
    PanelInv (terminal_delete_lines q n) ↔ PanelInv q := by
  obtain ⟨s, hs⟩ := terminal_delete_lines_screen_only q n
  rw [hs]
  exact Iff.rfl

theorem PanelInv_insert_chars (q : Panel) (n : Int) :
    PanelInv (terminal_insert_chars q n) ↔ PanelInv q := by
  obtain ⟨s, hs⟩ := terminal_insert_chars_screen_only q n
  rw [hs]
  exact Iff.rfl

theorem PanelInv_delete_chars (q : Panel) (n : Int) :
    PanelInv (terminal_delete_chars q n) ↔ PanelInv q := by
  obtain ⟨s, hs⟩ := terminal_delete_chars_screen_only q n
  rw [hs]
  exact Iff.rfl

theorem enhanced_esc_dispatch_inv (p : Panel) (intermediates : List Nat) (ignore : Bool)
    (b : Nat) (h : PanelInv p) : PanelInv (enhanced_esc_dispatch p intermediates ignore b) := by
  have h0 := h
  obtain ⟨hw, hh, hx0, hxw, hy0, hyh, hsx0, hsxw, hsy0, hsyh, ht0, htb, hbh⟩ := h
  delta enhanced_esc_dispatch
  by_cases hig : ignore
  · rw [if_pos hig]; exact h0
  rw [if_neg hig]
  by_cases h1 : b = 0x37
  · rw [if_pos h1]; delta terminal_save_cursor; unfold PanelInv; dsimp only; omega
  rw [if_neg h1]
  by_cases h2 : b = 0x38
  · rw [if_pos h2]; delta terminal_restore_cursor; unfold PanelInv; dsimp only; omega
  rw [if_neg h2]
  by_cases h3 : b = 0x63
  · rw [if_pos h3]
    delta terminal_panel_reset
    rw [PanelInv_clear_screen]
    delta terminal_panel_init
    unfold PanelInv; dsimp only; omega
  rw [if_neg h3]
  by_cases h4 : b = 0x44
  · rw [if_pos h4]
    by_cases hc : p.cursor_y ≥ p.scroll_bottom
    · rw [if_pos hc, PanelInv_scroll_up]; exact h0
    · rw [if_neg hc]; unfold PanelInv; dsimp only; omega
  rw [if_neg h4]
  by_cases h5 : b = 0x45
  · rw [if_pos h5]
    dsimp only
    by_cases hc : p.cursor_y ≥ p.scroll_bottom
    · rw [if_pos hc, PanelInv_scroll_up]
      unfold PanelInv; dsimp only; omega
    · rw [if_neg hc]; unfold PanelInv; dsimp only; omega
  rw [if_neg h5]
  by_cases h6 : b = 0x48
  · rw [if_pos h6]
    delta terminal_set_tab_stop
    by_cases hc : 0 ≤ p.cursor_x ∧ p.cursor_x < 256
    · rw [if_pos hc]; unfold PanelInv; dsimp only; omega
    · rw [if_neg hc]; exact h0
  rw [if_neg h6]
  by_cases h7 : b = 0x4D
  · rw [if_pos h7]
    by_cases hc : p.cursor_y ≤ p.scroll_top
    · rw [if_pos hc, PanelInv_scroll_down]; exact h0
    · rw [if_neg hc]; unfold PanelInv; dsimp only; omega
  rw [if_neg h7]
  by_cases h8 : b = 0x5A
  · rw [if_pos h8]; exact h0
  rw [if_neg h8]
  by_cases h9 : b = 0x3D
  · rw [if_pos h9]; unfold PanelInv; dsimp only; omega
  rw [if_neg h9]
  by_cases h10 : b = 0x3E
  · rw [if_pos h10]; unfold PanelInv; dsimp only; omega
  rw [if_neg h10]
  by_cases h11 : b = 0x4E ∨ b = 0x4F
  · rw [if_pos h11]; exact h0
  rw [if_neg h11]
  by_cases h12 : intermediates.length = 1
  · rw [if_pos h12]
    dsimp only
    by_cases h13 : intermediates.getD 0 0 = 0x28
    · rw [if_pos h13]; unfold PanelInv; dsimp only; omega
    rw [if_neg h13]
    by_cases h14 : intermediates.getD 0 0 = 0x29
    · rw [if_pos h14]; unfold PanelInv; dsimp only; omega
    · rw [if_neg h14]; exact h0
  · rw [if_neg h12]; exact h0
set_option maxHeartbeats 1000000 in
theorem enhanced_csi_dispatch_inv (p : Panel) (ps : VteParams) (intermediates : List Nat)
    (ignore : Bool) (a : Nat) (h : PanelInv p) :
    PanelInv (enhanced_csi_dispatch p ps intermediates ignore a) := by
  have h0 := h
  obtain ⟨hw, hh, hx0, hxw, hy0, hyh, hsx0, hsxw, hsy0, hsyh, ht0, htb, hbh⟩ := h
  delta enhanced_csi_dispatch
  by_cases hig : ignore
  · rw [if_pos hig]; exact h0
  rw [if_neg hig]
  by_cases c1 : a = 65
  · rw [if_pos c1]; unfold PanelInv; dsimp only; split_ifs <;> omega
  rw [if_neg c1]
  by_cases c2 : a = 66
  · rw [if_pos c2]; unfold PanelInv; dsimp only; split_ifs <;> omega
  rw [if_neg c2]
  by_cases c3 : a = 67
  · rw [if_pos c3]; unfold PanelInv; dsimp only; split_ifs <;> omega
  rw [if_neg c3]
  by_cases c4 : a = 68
  · rw [if_pos c4]; unfold PanelInv; dsimp only; split_ifs <;> omega
  rw [if_neg c4]
  by_cases c5 : a = 69
  · rw [if_pos c5]; unfold PanelInv; dsimp only; split_ifs <;> omega
  rw [if_neg c5]
  by_cases c6 : a = 70
  · rw [if_pos c6]; unfold PanelInv; dsimp only; split_ifs <;> omega
  rw [if_neg c6]
  by_cases c7 : a = 71
  · rw [if_pos c7]; unfold PanelInv; dsimp only; split_ifs <;> omega
  rw [if_neg c7]
  by_cases c8 : a = 72 ∨ a = 102
  · rw [if_pos c8]; unfold PanelInv; dsimp only; split_ifs <;> omega
  rw [if_neg c8]
  by_cases c9 : a = 73
  · rw [if_pos c9]
    have hb := terminal_tab_forward_x_bounds p (vte_params_get_single ps 0 1) p.cursor_x hx0 hxw
    delta terminal_tab_forward
    unfold PanelInv; dsimp only; omega
  rw [if_neg c9]
  by_cases c10 : a = 74
  · rw [if_pos c10, PanelInv_clear_screen]; exact h0
  rw [if_neg c10]
  by_cases c11 : a = 75
  · rw [if_pos c11, PanelInv_clear_line]; exact h0
  rw [if_neg c11]
  by_cases c12 : a = 76
  · rw [if_pos c12, PanelInv_insert_lines]; exact h0
  rw [if_neg c12]
  by_cases c13 : a = 77
  · rw [if_pos c13, PanelInv_delete_lines]; exact h0
  rw [if_neg c13]
  by_cases c14 : a = 80
  · rw [if_pos c14, PanelInv_delete_chars]; exact h0
  rw [if_neg c14]
  by_cases c15 : a = 83
  · rw [if_pos c15, PanelInv_scroll_up]; exact h0
  rw [if_neg c15]
  by_cases c16 : a = 84
  · rw [if_pos c16, PanelInv_scroll_down]; exact h0
  rw [if_neg c16]
  by_cases c17 : a = 88
  · rw [if_pos c17]
    dsimp only
    by_cases hc : 0 ≤ p.cursor_y ∧ p.cursor_y < p.screen_height
    · rw [if_pos hc]; exact h0
    · rw [if_neg hc]; exact h0
  rw [if_neg c17]
  by_cases c18 : a = 90
  · rw [if_pos c18]
    have hb := terminal_tab_backward_x_bounds p (vte_params_get_single ps 0 1) p.cursor_x hx0 hxw hw
    delta terminal_tab_backward
    unfold PanelInv; dsimp only; omega
  rw [if_neg c18]
  by_cases c19 : a = 64
  · rw [if_pos c19, PanelInv_insert_chars]; exact h0
  rw [if_neg c19]
  by_cases c20 : a = 100
  · rw [if_pos c20]; unfold PanelInv; dsimp only; split_ifs <;> omega
  rw [if_neg c20]
  by_cases c21 : a = 103
  · rw [if_pos c21]
    delta terminal_clear_tab_stop
    by_cases m0 : vte_params_get_single ps 0 0 = 0
    · rw [if_pos m0]
      by_cases hc : 0 ≤ p.cursor_x ∧ p.cursor_x < 256
      · rw [if_pos hc]; exact h0
      · rw [if_neg hc]; exact h0
    rw [if_neg m0]
    by_cases m3 : vte_params_get_single ps 0 0 = 3
    · rw [if_pos m3]; exact h0
    · rw [if_neg m3]; exact h0
  rw [if_neg c21]
  by_cases c22 : a = 104
  · rw [if_pos c22]; exact h0
  rw [if_neg c22]
  by_cases c23 : a = 108
  · rw [if_pos c23]; exact h0
  rw [if_neg c23]
  by_cases c24 : a = 109
  · rw [if_pos c24]
    by_cases hl : vte_params_len ps = 0
    · rw [if_pos hl]; exact h0
    · rw [if_neg hl]; exact h0
  rw [if_neg c24]
  by_cases c25 : a = 114
  · rw [if_pos c25]
    dsimp only
    by_cases hc : 0 ≤ (vte_params_get_single ps 0 1 : Int) - 1 ∧
        (vte_params_get_single ps 1 ((p.screen_height % 65536).toNat) : Int) - 1 < p.screen_height ∧
        (vte_params_get_single ps 0 1 : Int) - 1 <
          (vte_params_get_single ps 1 ((p.screen_height % 65536).toNat) : Int) - 1
    · rw [if_pos hc]; unfold PanelInv; dsimp only; split_ifs <;> omega
    · rw [if_neg hc]; exact h0
  rw [if_neg c25]
  by_cases c26 : a = 115
  · rw [if_pos c26]; delta terminal_save_cursor; unfold PanelInv; dsimp only; omega
  rw [if_neg c26]
  by_cases c27 : a = 117
  · rw [if_pos c27]; delta terminal_restore_cursor; unfold PanelInv; dsimp only; omega
  rw [if_neg c27]
  exact h0

/-! ### C5: cursor bounds -/

/-- A panel whose cursor is in bounds but whose saved cursor is not. -/
def c5_panel_restore : Panel := { mk_panel 2 2 with saved_cursor_x := 5 }

/-- A panel whose cursor is in bounds but whose scrolling region reaches
the grid height. -/
def c5_panel_lf : Panel := { mk_panel 2 2 with cursor_y := 1, scroll_bottom := 2 }

/-- C5, as stated, is false: cursor bounds alone are not preserved by a
single event dispatch.  From a state with the cursor in bounds but a
saved cursor column of 5 on a 2-wide grid, CSI u restores `cursor_x = 5`;
from a state with the cursor in bounds but `scroll_bottom = height`, LF
moves `cursor_y` to `height`. -/
theorem c5_counterexample :
    (0 ≤ c5_panel_restore.cursor_x ∧ c5_panel_restore.cursor_x < c5_panel_restore.screen_width ∧
     0 ≤ c5_panel_restore.cursor_y ∧ c5_panel_restore.cursor_y < c5_panel_restore.screen_height ∧
     ¬ (apply_event c5_panel_restore (VteEvent.csi_dispatch vte_params_clear [] false 117)).cursor_x
        < c5_panel_restore.screen_width) ∧
    (0 ≤ c5_panel_lf.cursor_x ∧ c5_panel_lf.cursor_x < c5_panel_lf.screen_width ∧
     0 ≤ c5_panel_lf.cursor_y ∧ c5_panel_lf.cursor_y < c5_panel_lf.screen_height ∧
     ¬ (apply_event c5_panel_lf (VteEvent.execute 0x0A)).cursor_y
        < c5_panel_lf.screen_height) := by decide

/-- C5 (amended): starting from any state satisfying the full panel
invariant — positive width, height at least 2, cursor AND saved cursor
inside the grid, and a valid scrolling region
`0 ≤ scroll_top < scroll_bottom < height` — every single event dispatch
(print, execute, csi_dispatch, esc_dispatch, osc_dispatch and the DCS
events) preserves the invariant, and in particular
`0 ≤ cursor_x < width` and `0 ≤ cursor_y < height` hold afterwards. -/
theorem c5_cursor_bounds_invariant (e : VteEvent) (p : Panel) (h : PanelInv p) :
    PanelInv (apply_event p e) ∧
    0 ≤ (apply_event p e).cursor_x ∧ (apply_event p e).cursor_x < (apply_event p e).screen_width ∧
    0 ≤ (apply_event p e).cursor_y ∧
    (apply_event p e).cursor_y < (apply_event p e).screen_height := by
  have main : PanelInv (apply_event p e) := by
    cases e with
    | print cp => exact enhanced_print_inv p cp h
    | execute b => exact enhanced_execute_inv p b h
    | csi_dispatch ps ints ign a => exact enhanced_csi_dispatch_inv p ps ints ign a h
    | esc_dispatch ints ign b => exact enhanced_esc_dispatch_inv p ints ign b h
    | osc_dispatch ps bell => exact h
    | hook ps ints ign a => exact h
    | put b => exact h
    | unhook => exact h
  exact ⟨main, main.2.2.1, main.2.2.2.1, main.2.2.2.2.1, main.2.2.2.2.2.1⟩

/-- Witness for C5: the invariant holds for a fresh 4 by 5 panel and is
preserved across a line feed dispatch. -/
theorem c5_cursor_bounds_invariant_witness :
    PanelInv (mk_panel 4 5) ∧ PanelInv (apply_event (mk_panel 4 5) (VteEvent.execute 0x0A)) :=
  ⟨by decide, (c5_cursor_bounds_invariant (VteEvent.execute 0x0A) (mk_panel 4 5) (by decide)).1⟩

/-! ### C6: scrolling region -/

/-- The scrolling-region invariant of the specification (for grids of
height at least 2). -/
def RegionInv (p : Panel) : Prop :=
  2 ≤ p.screen_height ∧ 0 ≤ p.scroll_top ∧ p.scroll_top < p.scroll_bottom ∧
  p.scroll_bottom < p.screen_height

instance (p : Panel) : Decidable (RegionInv p) := by unfold RegionInv; infer_instance

theorem enhanced_print_region (p : Panel) (cp : Nat) (h : RegionInv p) :
    RegionInv (enhanced_print p cp) := by
  have h0 := h
  obtain ⟨hh, ht0, htb, hbh⟩ := h
  delta enhanced_print
  dsimp only
  by_cases hg : 0 ≤ p.cursor_y ∧ p.cursor_y < p.screen_height ∧
      0 ≤ p.cursor_x ∧ p.cursor_x < p.screen_width
  · rw [if_pos hg]
    by_cases hins : p.modes.insert_mode
    · rw [if_pos hins]
      obtain ⟨s1, hs1⟩ := terminal_insert_chars_screen_only p 1
      rw [hs1]
      try dsimp only
      by_cases hwrap : p.cursor_x + 1 ≥ p.screen_width
      · rw [if_pos hwrap]
        by_cases haw : p.modes.auto_wrap
        · rw [if_pos haw]
          try dsimp only
          by_cases hyb : p.cursor_y + 1 > p.scroll_bottom
          · rw [if_pos hyb]
            obtain ⟨s2, hs2⟩ := terminal_scroll_up_screen_only _ 1
            rw [hs2]
            unfold RegionInv; dsimp only; omega
          · rw [if_neg hyb]; unfold RegionInv; dsimp only; omega
        · rw [if_neg haw]; unfold RegionInv; dsimp only; omega
      · rw [if_neg hwrap]; unfold RegionInv; dsimp only; omega
    · rw [if_neg hins]
      try dsimp only
      by_cases hwrap : p.cursor_x + 1 ≥ p.screen_width
      · rw [if_pos hwrap]
        by_cases haw : p.modes.auto_wrap
        · rw [if_pos haw]
          try dsimp only
          by_cases hyb : p.cursor_y + 1 > p.scroll_bottom
          · rw [if_pos hyb]
            obtain ⟨s2, hs2⟩ := terminal_scroll_up_screen_only _ 1
            rw [hs2]
            unfold RegionInv; dsimp only; omega
          · rw [if_neg hyb]; unfold RegionInv; dsimp only; omega
        · rw [if_neg haw]; unfold RegionInv; dsimp only; omega
      · rw [if_neg hwrap]; unfold RegionInv; dsimp only; omega
  · rw [if_neg hg]; exact h0
theorem enhanced_execute_region (p : Panel) (b : Nat) (h : RegionInv p) :
    RegionInv (enhanced_execute p b) := by
  have h0 := h
  obtain ⟨hh, ht0, htb, hbh⟩ := h
  delta enhanced_execute
  by_cases h1 : b = 0x07
  · rw [if_pos h1]; exact h0
  rw [if_neg h1]
  by_cases h2 : b = 0x08
  · rw [if_pos h2]
    by_cases hx : p.cursor_x > 0
    · rw [if_pos hx]; exact h0
    · rw [if_neg hx]; exact h0
  rw [if_neg h2]
  by_cases h3 : b = 0x09
  · rw [if_pos h3]; delta terminal_tab_forward; exact h0
  rw [if_neg h3]
  by_cases h4 : b = 0x0A ∨ b = 0x0B ∨ b = 0x0C
  · rw [if_pos h4]
    dsimp only
    by_cases hc : p.cursor_y ≥ p.scroll_bottom
    · rw [if_pos hc]
      obtain ⟨s, hs⟩ := terminal_scroll_up_screen_only { p with cursor_x := 0 } 1
      rw [hs]; exact h0
    · rw [if_neg hc]; exact h0
  rw [if_neg h4]
  by_cases h5 : b = 0x0D
  · rw [if_pos h5]; exact h0
  rw [if_neg h5]
  by_cases h6 : b = 0x0E
  · rw [if_pos h6]; exact h0
  rw [if_neg h6]
  by_cases h7 : b = 0x0F
  · rw [if_pos h7]; exact h0
  rw [if_neg h7]
  by_cases h8 : b = 0x84
  · rw [if_pos h8]
    by_cases hc : p.cursor_y ≥ p.scroll_bottom
    · rw [if_pos hc]
      obtain ⟨s, hs⟩ := terminal_scroll_up_screen_only p 1
      rw [hs]; exact h0
    · rw [if_neg hc]; exact h0
  rw [if_neg h8]
  by_cases h9 : b = 0x85
  · rw [if_pos h9]
    dsimp only
    by_cases hc : p.cursor_y ≥ p.scroll_bottom
    · rw [if_pos hc]
      obtain ⟨s, hs⟩ := terminal_scroll_up_screen_only { p with cursor_x := 0 } 1
      rw [hs]; exact h0
    · rw [if_neg hc]; exact h0
  rw [if_neg h9]
  by_cases h10 : b = 0x88
  · rw [if_pos h10]
    delta terminal_set_tab_stop
    by_cases hc : 0 ≤ p.cursor_x ∧ p.cursor_x < 256
    · rw [if_pos hc]; exact h0
    · rw [if_neg hc]; exact h0
  rw [if_neg h10]
  by_cases h11 : b = 0x8D
  · rw [if_pos h11]
    by_cases hc : p.cursor_y ≤ p.scroll_top
    · rw [if_pos hc]
      obtain ⟨s, hs⟩ := terminal_scroll_down_screen_only p 1
      rw [hs]; exact h0
    · rw [if_neg hc]; exact h0
  rw [if_neg h11]
  exact h0

theorem enhanced_esc_dispatch_region (p : Panel) (intermediates : List Nat) (ignore : Bool)
    (b : Nat) (h : RegionInv p) :
    RegionInv (enhanced_esc_dispatch p intermediates ignore b) := by
  have h0 := h
  obtain ⟨hh, ht0, htb, hbh⟩ := h
  delta enhanced_esc_dispatch
  by_cases hig : ignore
  · rw [if_pos hig]; exact h0
  rw [if_neg hig]
  by_cases h1 : b = 0x37
  · rw [if_pos h1]; delta terminal_save_cursor; exact h0
  rw [if_neg h1]
  by_cases h2 : b = 0x38
  · rw [if_pos h2]; delta terminal_restore_cursor; exact h0
  rw [if_neg h2]
  by_cases h3 : b = 0x63
  · rw [if_pos h3]
    delta terminal_panel_reset
    obtain ⟨s, hs⟩ := terminal_clear_screen_screen_only
      (terminal_panel_init p p.screen_width p.screen_height) 2
    rw [hs]
    delta terminal_panel_init
    unfold RegionInv; dsimp only; omega
  rw [if_neg h3]
  by_cases h4 : b = 0x44
  · rw [if_pos h4]
    by_cases hc : p.cursor_y ≥ p.scroll_bottom
    · rw [if_pos hc]
      obtain ⟨s, hs⟩ := terminal_scroll_up_screen_only p 1
      rw [hs]; exact h0
    · rw [if_neg hc]; exact h0
  rw [if_neg h4]
  by_cases h5 : b = 0x45
  · rw [if_pos h5]
    dsimp only
    by_cases hc : p.cursor_y ≥ p.scroll_bottom
    · rw [if_pos hc]
      obtain ⟨s, hs⟩ := terminal_scroll_up_screen_only { p with cursor_x := 0 } 1
      rw [hs]; exact h0
    · rw [if_neg hc]; exact h0
  rw [if_neg h5]
  by_cases h6 : b = 0x48
  · rw [if_pos h6]
    delta terminal_set_tab_stop
    by_cases hc : 0 ≤ p.cursor_x ∧ p.cursor_x < 256
    · rw [if_pos hc]; exact h0
    · rw [if_neg hc]; exact h0
  rw [if_neg h6]
  by_cases h7 : b = 0x4D
  · rw [if_pos h7]
    by_cases hc : p.cursor_y ≤ p.scroll_top
    · rw [if_pos hc]
      obtain ⟨s, hs⟩ := terminal_scroll_down_screen_only p 1
      rw [hs]; exact h0
    · rw [if_neg hc]; exact h0
  rw [if_neg h7]
  by_cases h8 : b = 0x5A
  · rw [if_pos h8]; exact h0
  rw [if_neg h8]
  by_cases h9 : b = 0x3D
  · rw [if_pos h9]; exact h0
  rw [if_neg h9]
  by_cases h10 : b = 0x3E
  · rw [if_pos h10]; exact h0
  rw [if_neg h10]
  by_cases h11 : b = 0x4E ∨ b = 0x4F
  · rw [if_pos h11]; exact h0
  rw [if_neg h11]
  by_cases h12 : intermediates.length = 1
  · rw [if_pos h12]
    dsimp only
    by_cases h13 : intermediates.getD 0 0 = 0x28
    · rw [if_pos h13]; exact h0
    rw [if_neg h13]
    by_cases h14 : intermediates.getD 0 0 = 0x29
    · rw [if_pos h14]; exact h0
    · rw [if_neg h14]; exact h0
  · rw [if_neg h12]; exact h0
set_option maxHeartbeats 1000000 in
theorem enhanced_csi_dispatch_region (p : Panel) (ps : VteParams) (intermediates : List Nat)
    (ignore : Bool) (a : Nat) (h : RegionInv p) :
    RegionInv (enhanced_csi_dispatch p ps intermediates ignore a) := by
  have h0 := h
  obtain ⟨hh, ht0, htb, hbh⟩ := h
  delta enhanced_csi_dispatch
  by_cases hig : ignore
  · rw [if_pos hig]; exact h0
  rw [if_neg hig]
  by_cases c1 : a = 65
  · rw [if_pos c1]; exact h0
  rw [if_neg c1]
  by_cases c2 : a = 66
  · rw [if_pos c2]; exact h0
  rw [if_neg c2]
  by_cases c3 : a = 67
  · rw [if_pos c3]; exact h0
  rw [if_neg c3]
  by_cases c4 : a = 68
  · rw [if_pos c4]; exact h0
  rw [if_neg c4]
  by_cases c5 : a = 69
  · rw [if_pos c5]; exact h0
  rw [if_neg c5]
  by_cases c6 : a = 70
  · rw [if_pos c6]; exact h0
  rw [if_neg c6]
  by_cases c7 : a = 71
  · rw [if_pos c7]; exact h0
  rw [if_neg c7]
  by_cases c8 : a = 72 ∨ a = 102
  · rw [if_pos c8]; exact h0
  rw [if_neg c8]
  by_cases c9 : a = 73
  · rw [if_pos c9]; delta terminal_tab_forward; exact h0
  rw [if_neg c9]
  by_cases c10 : a = 74
  · rw [if_pos c10]
    obtain ⟨s, hs⟩ := terminal_clear_screen_screen_only p (vte_params_get_single ps 0 0)
    rw [hs]; exact h0
  rw [if_neg c10]
  by_cases c11 : a = 75
  · rw [if_pos c11]
    obtain ⟨s, hs⟩ := terminal_clear_line_screen_only p (vte_params_get_single ps 0 0)
    rw [hs]; exact h0
  rw [if_neg c11]
  by_cases c12 : a = 76
  · rw [if_pos c12]
    obtain ⟨s, hs⟩ := terminal_insert_lines_screen_only p (vte_params_get_single ps 0 1)
    rw [hs]; exact h0
  rw [if_neg c12]
  by_cases c13 : a = 77
  · rw [if_pos c13]
    obtain ⟨s, hs⟩ := terminal_delete_lines_screen_only p (vte_params_get_single ps 0 1)
    rw [hs]; exact h0
  rw [if_neg c13]
  by_cases c14 : a = 80
  · rw [if_pos c14]
    obtain ⟨s, hs⟩ := terminal_delete_chars_screen_only p (vte_params_get_single ps 0 1)
    rw [hs]; exact h0
  rw [if_neg c14]
  by_cases c15 : a = 83
  · rw [if_pos c15]
    obtain ⟨s, hs⟩ := terminal_scroll_up_screen_only p (vte_params_get_single ps 0 1)
    rw [hs]; exact h0
  rw [if_neg c15]
  by_cases c16 : a = 84
  · rw [if_pos c16]
    obtain ⟨s, hs⟩ := terminal_scroll_down_screen_only p (vte_params_get_single ps 0 1)
    rw [hs]; exact h0
  rw [if_neg c16]
  by_cases c17 : a = 88
  · rw [if_pos c17]
    dsimp only
    by_cases hc : 0 ≤ p.cursor_y ∧ p.cursor_y < p.screen_height
    · rw [if_pos hc]; exact h0
    · rw [if_neg hc]; exact h0
  rw [if_neg c17]
  by_cases c18 : a = 90
  · rw [if_pos c18]; delta terminal_tab_backward; exact h0
  rw [if_neg c18]
  by_cases c19 : a = 64
  · rw [if_pos c19]
    obtain ⟨s, hs⟩ := terminal_insert_chars_screen_only p (vte_params_get_single ps 0 1)
    rw [hs]; exact h0
  rw [if_neg c19]
  by_cases c20 : a = 100
  · rw [if_pos c20]; exact h0
  rw [if_neg c20]
  by_cases c21 : a = 103
  · rw [if_pos c21]
    delta terminal_clear_tab_stop
    by_cases m0 : vte_params_get_single ps 0 0 = 0
    · rw [if_pos m0]
      by_cases hc : 0 ≤ p.cursor_x ∧ p.cursor_x < 256
      · rw [if_pos hc]; exact h0
      · rw [if_neg hc]; exact h0
    rw [if_neg m0]
    by_cases m3 : vte_params_get_single ps 0 0 = 3
    · rw [if_pos m3]; exact h0
    · rw [if_neg m3]; exact h0
  rw [if_neg c21]
  by_cases c22 : a = 104
  · rw [if_pos c22]; exact h0
  rw [if_neg c22]
  by_cases c23 : a = 108
  · rw [if_pos c23]; exact h0
  rw [if_neg c23]
  by_cases c24 : a = 109
  · rw [if_pos c24]
    by_cases hl : vte_params_len ps = 0
    · rw [if_pos hl]; exact h0
    · rw [if_neg hl]; exact h0
  rw [if_neg c24]
  by_cases c25 : a = 114
  · rw [if_pos c25]
    dsimp only
    by_cases hc : 0 ≤ (vte_params_get_single ps 0 1 : Int) - 1 ∧
        (vte_params_get_single ps 1 ((p.screen_height % 65536).toNat) : Int) - 1 < p.screen_height ∧
        (vte_params_get_single ps 0 1 : Int) - 1 <
          (vte_params_get_single ps 1 ((p.screen_height % 65536).toNat) : Int) - 1
    · rw [if_pos hc]; unfold RegionInv; dsimp only; omega
    · rw [if_neg hc]; exact h0
  rw [if_neg c25]
  by_cases c26 : a = 115
  · rw [if_pos c26]; delta terminal_save_cursor; exact h0
  rw [if_neg c26]
  by_cases c27 : a = 117
  · rw [if_pos c27]; delta terminal_restore_cursor; exact h0
  rw [if_neg c27]
  exact h0
/-- The `r` case of `enhanced_csi_dispatch`, exposed. -/
theorem enhanced_csi_dispatch_r (p : Panel) (ps : VteParams) (ints : List Nat) :
    enhanced_csi_dispatch p ps ints false 114 =
      (if 0 ≤ (vte_params_get_single ps 0 1 : Int) - 1 ∧
          (vte_params_get_single ps 1 ((p.screen_height % 65536).toNat) : Int) - 1 <
            p.screen_height ∧
          (vte_params_get_single ps 0 1 : Int) - 1 <
            (vte_params_get_single ps 1 ((p.screen_height % 65536).toNat) : Int) - 1 then
        { p with
          scroll_top := (vte_params_get_single ps 0 1 : Int) - 1
          scroll_bottom :=
            (vte_params_get_single ps 1 ((p.screen_height % 65536).toNat) : Int) - 1
          cursor_x := 0
          cursor_y := if p.modes.origin_mode then (vte_params_get_single ps 0 1 : Int) - 1
            else 0 }
      else p) := rfl

/-- C6: for every grid of height at least 2,
`0 ≤ scroll_top < scroll_bottom < height` holds after initialization and
is preserved by every event dispatch; CSI r with parameters implying
top ≥ bottom or bounds outside the grid leaves the panel (scroll bounds
and cursor included) entirely unchanged, while valid parameters set the
region to `[p1-1, p2-1]` and move the cursor home (column 0, row
`scroll_top` in origin mode and 0 otherwise). -/
theorem c6_scrolling_region_invariant :
    (∀ (p : Panel) (w ht : Int), 2 ≤ ht → RegionInv (terminal_panel_init p w ht)) ∧
    (∀ (e : VteEvent) (p : Panel), RegionInv p → RegionInv (apply_event p e)) ∧
    (∀ (p : Panel) (ps : VteParams) (ints : List Nat),
      ¬ (0 ≤ (vte_params_get_single ps 0 1 : Int) - 1 ∧
          (vte_params_get_single ps 1 ((p.screen_height % 65536).toNat) : Int) - 1 <
            p.screen_height ∧
          (vte_params_get_single ps 0 1 : Int) - 1 <
            (vte_params_get_single ps 1 ((p.screen_height % 65536).toNat) : Int) - 1) →
      enhanced_csi_dispatch p ps ints false 114 = p) ∧
    (∀ (p : Panel) (ps : VteParams) (ints : List Nat),
      (0 ≤ (vte_params_get_single ps 0 1 : Int) - 1 ∧
          (vte_params_get_single ps 1 ((p.screen_height % 65536).toNat) : Int) - 1 <
            p.screen_height ∧
          (vte_params_get_single ps 0 1 : Int) - 1 <
            (vte_params_get_single ps 1 ((p.screen_height % 65536).toNat) : Int) - 1) →
      enhanced_csi_dispatch p ps ints false 114 =
        { p with
          scroll_top := (vte_params_get_single ps 0 1 : Int) - 1
          scroll_bottom :=
            (vte_params_get_single ps 1 ((p.screen_height % 65536).toNat) : Int) - 1
          cursor_x := 0
          cursor_y := if p.modes.origin_mode then (vte_params_get_single ps 0 1 : Int) - 1
            else 0 }) := by
  refine ⟨?_, ?_, ?_, ?_⟩
  · intro p w ht hht
    delta terminal_panel_init
    unfold RegionInv; dsimp only; omega
  · intro e p h
    cases e with
    | print cp => exact enhanced_print_region p cp h
    | execute b => exact enhanced_execute_region p b h
    | csi_dispatch ps ints ign a => exact enhanced_csi_dispatch_region p ps ints ign a h
    | esc_dispatch ints ign b => exact enhanced_esc_dispatch_region p ints ign b h
    | osc_dispatch ps bell => exact h
    | hook ps ints ign a => exact h
    | put b => exact h
    | unhook => exact h
  · intro p ps ints hinv
    rw [enhanced_csi_dispatch_r, if_neg hinv]
  · intro p ps ints hv
    rw [enhanced_csi_dispatch_r, if_pos hv]

/-- The parameter list of `CSI 70;2r` (invalid: top 69 ≥ bottom 1). -/
def c6_bad_params : VteParams := vte_params_push (vte_params_push vte_params_clear 70) 2

/-- The parameter list of `CSI 2;4r`. -/
def c6_good_params : VteParams := vte_params_push (vte_params_push vte_params_clear 2) 4

/-- Witness for C6 at concrete inputs: a fresh 4 by 5 panel, a line-feed
dispatch, an invalid region request 70;2 (ignored) and a valid one 2;4. -/
theorem c6_scrolling_region_invariant_witness :
    RegionInv (terminal_panel_init (mk_panel 4 5) 4 5) ∧
    RegionInv (apply_event (mk_panel 4 5) (VteEvent.execute 0x0A)) ∧
    enhanced_csi_dispatch (mk_panel 4 5) c6_bad_params [] false 114 = mk_panel 4 5 ∧
    (enhanced_csi_dispatch (mk_panel 4 5) c6_good_params [] false 114).scroll_top = 1 ∧
    (enhanced_csi_dispatch (mk_panel 4 5) c6_good_params [] false 114).scroll_bottom = 3 := by
  refine ⟨c6_scrolling_region_invariant.1 (mk_panel 4 5) 4 5 (by decide),
    c6_scrolling_region_invariant.2.1 (VteEvent.execute 0x0A) (mk_panel 4 5) (by decide),
    c6_scrolling_region_invariant.2.2.1 (mk_panel 4 5) c6_bad_params [] (by decide),
    ?_, ?_⟩
  · rw [c6_scrolling_region_invariant.2.2.2 (mk_panel 4 5) c6_good_params [] (by decide)]
    decide
  · rw [c6_scrolling_region_invariant.2.2.2 (mk_panel 4 5) c6_good_params [] (by decide)]
    decide

/-! ### C9: dispatch with ignore = true is a no-op -/

/-- C9: whenever a CSI or ESC dispatch is delivered with `ignore = true`
(as happens after a buffer overflow set the ignoring flag), the entire
screen state — grid cells, cursor, pen, modes, scrolling region, tab
stops, character sets, and saved state — is left completely unchanged. -/
theorem c9_ignore_dispatch_frame (p : Panel) (ps : VteParams) (ints : List Nat)
    (a b : Nat) :
    enhanced_csi_dispatch p ps ints true a = p ∧
    enhanced_esc_dispatch p ints true b = p := by
  constructor
  · delta enhanced_csi_dispatch
    rw [if_pos rfl]
  · delta enhanced_esc_dispatch
    rw [if_pos rfl]

/-! ### C10: restore without a prior save -/

/-- C10: with no save since construction (or since RIS), a restore via
CSI u or ESC 8 puts the cursor at (0, 0) and the pen at the defaults
`fg = -1`, `bg = -1`, `attrs = 0`, because `terminal_panel_init`
initializes the saved slot to those values. -/
theorem c10_restore_without_save (p : Panel) (w ht : Int) (ps : VteParams)
    (ints : List Nat) :
    (let q := enhanced_csi_dispatch (terminal_panel_init p w ht) ps ints false 117
     q.cursor_x = 0 ∧ q.cursor_y = 0 ∧ q.fg_color = -1 ∧ q.bg_color = -1 ∧ q.attrs = 0) ∧
    (let q := enhanced_esc_dispatch (terminal_panel_init p w ht) ints false 0x38
     q.cursor_x = 0 ∧ q.cursor_y = 0 ∧ q.fg_color = -1 ∧ q.bg_color = -1 ∧ q.attrs = 0) ∧
    (let q := enhanced_esc_dispatch (terminal_panel_reset p) ints false 0x38
     q.cursor_x = 0 ∧ q.cursor_y = 0 ∧ q.fg_color = -1 ∧ q.bg_color = -1 ∧ q.attrs = 0) := by
  refine ⟨⟨rfl, rfl, rfl, rfl, rfl⟩, ⟨rfl, rfl, rfl, rfl, rfl⟩, ?_⟩
  delta terminal_panel_reset
  obtain ⟨s, hs⟩ := terminal_clear_screen_screen_only
    (terminal_panel_init p p.screen_width p.screen_height) 2
  rw [hs]
  exact ⟨rfl, rfl, rfl, rfl, rfl⟩

/-! ### C4: LF / VT / FF -/

/-- C4, as stated, is false: the source tests `cursor_y >= scroll_bottom`
(not equality), so with the region set to rows 0..1 of a 5-row grid and
the cursor parked below the region at row 3, a line feed scrolls the
region (erasing the A written at row 0) and leaves `cursor_y = 3`,
instead of incrementing it to 4 and leaving the grid alone. -/
theorem c4_counterexample :
    (let st := vte_feed (mk_panel 4 5, vte_parser_init)
      [0x41, 0x1B, 0x5B, 0x31, 0x3B, 0x32, 0x72, 0x1B, 0x5B, 0x34, 0x3B, 0x31, 0x48]
     let q := (vte_feed st [0x0A]).1
     st.1.scroll_bottom = 1 ∧ st.1.cursor_y = 3 ∧ ¬ st.1.cursor_y = st.1.scroll_bottom ∧
     (screen_cell st.1 0 0).codepoint = 0x41 ∧
     q.cursor_y = 3 ∧ (screen_cell q 0 0).codepoint = 32) := by decide

theorem enhanced_execute_lf_eq (p : Panel) (b : Nat)
    (hb : b = 0x0A ∨ b = 0x0B ∨ b = 0x0C) :
    enhanced_execute p b =
      (if p.cursor_y ≥ p.scroll_bottom then terminal_scroll_up { p with cursor_x := 0 } 1
       else { p with cursor_x := 0, cursor_y := p.cursor_y + 1 }) := by
  rcases hb with rfl | rfl | rfl <;> rfl

/-- C4 (amended): executing LF (0x0A), VT (0x0B), or FF (0x0C) first sets
`cursor_x` to 0 and then: if `cursor_y ≥ scroll_bottom` (at or BELOW the
region bottom) the scrolling region is scrolled up by one line with
`cursor_y` unchanged; only when `cursor_y < scroll_bottom` is `cursor_y`
incremented by 1, which stays below `height` whenever
`scroll_bottom < height` (no separate clamp exists in the source). -/
theorem c4_lf_semantics (p : Panel) (b : Nat)
    (hb : b = 0x0A ∨ b = 0x0B ∨ b = 0x0C) :
    (enhanced_execute p b).cursor_x = 0 ∧
    (p.cursor_y ≥ p.scroll_bottom →
      enhanced_execute p b = terminal_scroll_up { p with cursor_x := 0 } 1 ∧
      (enhanced_execute p b).cursor_y = p.cursor_y ∧
      (enhanced_execute p b).screen = (terminal_scroll_up { p with cursor_x := 0 } 1).screen) ∧
    (p.cursor_y < p.scroll_bottom →
      enhanced_execute p b = { p with cursor_x := 0, cursor_y := p.cursor_y + 1 } ∧
      (p.scroll_bottom < p.screen_height →
        (enhanced_execute p b).cursor_y < p.screen_height)) := by
  rw [enhanced_execute_lf_eq p b hb]
  by_cases hc : p.cursor_y ≥ p.scroll_bottom
  · rw [if_pos hc]
    obtain ⟨s, hs⟩ := terminal_scroll_up_screen_only { p with cursor_x := 0 } 1
    refine ⟨by rw [hs], fun _ => ⟨rfl, by rw [hs], rfl⟩, fun hlt => absurd hlt (by omega)⟩
  · rw [if_neg hc]
    exact ⟨rfl, fun hge => absurd hge hc, fun _ => ⟨rfl, fun hbh => by dsimp only; omega⟩⟩

/-- Witness for C4 at concrete inputs: a fresh 4 by 5 panel (cursor at
row 0, region bottom 4) takes the increment branch; a panel with the
cursor at the region bottom takes the scroll branch. -/
theorem c4_lf_semantics_witness :
    ((enhanced_execute (mk_panel 4 5) 0x0A).cursor_x = 0 ∧
     enhanced_execute (mk_panel 4 5) 0x0A =
       { mk_panel 4 5 with cursor_x := 0, cursor_y := 1 }) ∧
    (let pb := { mk_panel 4 5 with cursor_y := 4 }
     enhanced_execute pb 0x0B = terminal_scroll_up { pb with cursor_x := 0 } 1 ∧
     (enhanced_execute pb 0x0B).cursor_y = 4) := by
  refine ⟨⟨(c4_lf_semantics (mk_panel 4 5) 0x0A (by decide)).1, ?_⟩, ?_, ?_⟩
  · have h := ((c4_lf_semantics (mk_panel 4 5) 0x0A (by decide)).2.2 (by decide)).1
    rw [h]
    try decide
  · exact ((c4_lf_semantics { mk_panel 4 5 with cursor_y := 4 } 0x0B (by decide)).2.1
      (by decide)).1
  · have h := ((c4_lf_semantics { mk_panel 4 5 with cursor_y := 4 } 0x0B (by decide)).2.1
      (by decide)).2.1
    rw [h]
    try decide

/-! ### C2: OSC termination -/

/-- The parameter slices `vte_osc_end` hands to `osc_dispatch`. -/
def osc_slices (q : VteParser) : List (List Nat) :=
  q.osc_params.map fun se => (q.osc_raw.drop se.1).take (se.2 - se.1)

theorem vte_action_osc_put_param_pos (p : VteParser) :
    0 < (vte_action_osc_put_param p).osc_params.length := by
  delta vte_action_osc_put_param
  by_cases h1 : p.osc_params.length ≥ VTE_MAX_OSC_PARAMS
  · rw [if_pos h1]
    unfold VTE_MAX_OSC_PARAMS at h1
    omega
  rw [if_neg h1]
  dsimp only
  by_cases h2 : p.osc_params.length = 0
  · rw [if_pos h2]; simp
  · rw [if_neg h2]; simp

/-- C2, as stated, is false: the byte 0x9C received in OSC_STRING does
not terminate the string; it falls into the default case of
`vte_advance_osc_string` and is appended to the OSC buffer, with no
dispatch and the parser still in OSC_STRING. -/
theorem c2_counterexample :
    (let r := vte_parser_advance vte_parser_init [0x1B, 0x5D, 0x61, 0x9C]
     r.1.state = VteState.osc_string ∧ r.1.osc_raw = [0x61, 0x9C] ∧ r.2 = []) := by decide

/-- C2 (amended): from any parser in OSC_STRING, BEL (0x07) ends the
string and delivers `osc_dispatch` with `bell_terminated = true`; an ESC
first ends the string, delivering `osc_dispatch` with
`bell_terminated = false`, before moving to ESCAPE (so `ESC \`
terminates with `bell_terminated = false`); CAN/SUB (0x18/0x1A) likewise
end the string with `bell_terminated = false`.  The single byte 0x9C,
however, is NOT a terminator: it is appended to the OSC buffer (when the
buffer is below its 1024-byte cap) like any other content byte, with no
dispatch. -/
theorem c2_osc_termination (p : VteParser) (h : p.state = VteState.osc_string) :
    (vte_step p 0x07 =
      ({ vte_action_osc_put_param p with
          osc_raw := [], osc_params := [], state := VteState.ground },
       [VteEvent.osc_dispatch (osc_slices (vte_action_osc_put_param p)) true])) ∧
    (vte_step p 0x1B =
      ({ vte_reset_params (vte_action_osc_put_param p) with
          osc_raw := [], osc_params := [], state := VteState.escape },
       [VteEvent.osc_dispatch (osc_slices (vte_action_osc_put_param p)) false])) ∧
    (∀ b, b = 0x18 ∨ b = 0x1A →
      vte_step p b =
        ({ vte_action_osc_put_param p with
            osc_raw := [], osc_params := [], state := VteState.ground },
         [VteEvent.osc_dispatch (osc_slices (vte_action_osc_put_param p)) false,
          VteEvent.execute b])) ∧
    (vte_step p 0x9C =
      (if p.osc_raw.length < VTE_MAX_OSC_RAW then { p with osc_raw := p.osc_raw ++ [0x9C] }
       else p, [])) := by
  obtain ⟨st, prms, cur, ints, ign, oraw, oparams⟩ := p
  cases h
  have hpos := vte_action_osc_put_param_pos ⟨VteState.osc_string, prms, cur, ints, ign, oraw, oparams⟩
  refine ⟨?_, ?_, ?_, ?_⟩
  · show (let r := vte_osc_end ⟨VteState.osc_string, prms, cur, ints, ign, oraw, oparams⟩ 0x07
          ({ r.1 with state := VteState.ground }, r.2)) = _
    delta vte_osc_end
    dsimp only
    rw [if_pos hpos]
    rfl
  · show (let r := vte_osc_end ⟨VteState.osc_string, prms, cur, ints, ign, oraw, oparams⟩ 0x1B
          ({ vte_reset_params r.1 with state := VteState.escape }, r.2)) = _
    delta vte_osc_end
    dsimp only
    rw [if_pos hpos]
    rfl
  · rintro b (rfl | rfl) <;>
    · show (let r := vte_osc_end ⟨VteState.osc_string, prms, cur, ints, ign, oraw, oparams⟩ _
            ({ r.1 with state := VteState.ground }, r.2 ++ [VteEvent.execute _])) = _
      delta vte_osc_end
      dsimp only
      rw [if_pos hpos]
      rfl
  · show (vte_action_osc_put ⟨VteState.osc_string, prms, cur, ints, ign, oraw, oparams⟩ 0x9C,
          ([] : List VteEvent)) = _
    delta vte_action_osc_put
    try dsimp only
    try rfl

/-- Witness for C2: after `ESC ] a`, the parser is in OSC_STRING and BEL
dispatches the body with `bell_terminated = true`. -/
theorem c2_osc_termination_witness :
    (let p0 := (vte_parser_advance vte_parser_init [0x1B, 0x5D, 0x61]).1
     p0.state = VteState.osc_string ∧
     (vte_step p0 0x07).2 = [VteEvent.osc_dispatch [[0x61]] true] ∧
     (vte_step p0 0x9C).2 = []) := by
  refine ⟨by decide, ?_, ?_⟩
  · rw [(c2_osc_termination (vte_parser_advance vte_parser_init [0x1B, 0x5D, 0x61]).1
      (by decide)).1]
    try decide
  · rw [(c2_osc_termination (vte_parser_advance vte_parser_init [0x1B, 0x5D, 0x61]).1
      (by decide)).2.2.2]

theorem sgr_go_succ (ps : VteParams) (fuel i : Nat) (pen : SgrPen) :
    sgr_go ps (fuel + 1) i pen =
      (if i < vte_params_len ps then
    let prm := vte_params_get_single ps i 0
    if prm = 0 then sgr_go ps fuel (i + 1) ⟨-1, -1, 0⟩
    else if prm = 1 then sgr_go ps fuel (i + 1) { pen with attrs := pen.attrs ||| 1 }
    else if prm = 2 then sgr_go ps fuel (i + 1) { pen with attrs := pen.attrs ||| 8 }
    else if prm = 3 then sgr_go ps fuel (i + 1) { pen with attrs := pen.attrs ||| 16 }
    else if prm = 4 then sgr_go ps fuel (i + 1) { pen with attrs := pen.attrs ||| 2 }
    else if prm = 5 then sgr_go ps fuel (i + 1) { pen with attrs := pen.attrs ||| 32 }
    else if prm = 7 then sgr_go ps fuel (i + 1) { pen with attrs := pen.attrs ||| 4 }
    else if prm = 8 then sgr_go ps fuel (i + 1) { pen with attrs := pen.attrs ||| 64 }
    else if prm = 9 then sgr_go ps fuel (i + 1) { pen with attrs := pen.attrs ||| 128 }
    else if prm = 22 then sgr_go ps fuel (i + 1) { pen with attrs := attr_clear pen.attrs 9 }
    else if prm = 23 then sgr_go ps fuel (i + 1) { pen with attrs := attr_clear pen.attrs 16 }
    else if prm = 24 then sgr_go ps fuel (i + 1) { pen with attrs := attr_clear pen.attrs 2 }
    else if prm = 25 then sgr_go ps fuel (i + 1) { pen with attrs := attr_clear pen.attrs 32 }
    else if prm = 27 then sgr_go ps fuel (i + 1) { pen with attrs := attr_clear pen.attrs 4 }
    else if prm = 28 then sgr_go ps fuel (i + 1) { pen with attrs := attr_clear pen.attrs 64 }
    else if prm = 29 then sgr_go ps fuel (i + 1) { pen with attrs := attr_clear pen.attrs 128 }
    else if 30 ≤ prm ∧ prm ≤ 37 then sgr_go ps fuel (i + 1) { pen with fg := (prm : Int) - 30 }
    else if prm = 38 then
      if i + 1 < vte_params_len ps then
        let color_mode := vte_params_get_single ps (i + 1) 0
        if color_mode = 5 ∧ i + 2 < vte_params_len ps then
          sgr_go ps fuel (i + 3) { pen with fg := (vte_params_get_single ps (i + 2) 0 : Int) }
        else if color_mode = 2 ∧ i + 4 < vte_params_len ps then
          sgr_go ps fuel (i + 5)
            { pen with fg := (sgr_rgb (vte_params_get_single ps (i + 2) 0)
                (vte_params_get_single ps (i + 3) 0) (vte_params_get_single ps (i + 4) 0) : Int) }
        else sgr_go ps fuel (i + 1) pen
      else sgr_go ps fuel (i + 1) pen
    else if prm = 39 then sgr_go ps fuel (i + 1) { pen with fg := -1 }
    else if 40 ≤ prm ∧ prm ≤ 47 then sgr_go ps fuel (i + 1) { pen with bg := (prm : Int) - 40 }
    else if prm = 48 then
      if i + 1 < vte_params_len ps then
        let color_mode := vte_params_get_single ps (i + 1) 0
        if color_mode = 5 ∧ i + 2 < vte_params_len ps then
          sgr_go ps fuel (i + 3) { pen with bg := (vte_params_get_single ps (i + 2) 0 : Int) }
        else if color_mode = 2 ∧ i + 4 < vte_params_len ps then
          sgr_go ps fuel (i + 5)
            { pen with bg := (sgr_rgb (vte_params_get_single ps (i + 2) 0)
                (vte_params_get_single ps (i + 3) 0) (vte_params_get_single ps (i + 4) 0) : Int) }
        else sgr_go ps fuel (i + 1) pen
      else sgr_go ps fuel (i + 1) pen
    else if prm = 49 then sgr_go ps fuel (i + 1) { pen with bg := -1 }
    else if 90 ≤ prm ∧ prm ≤ 97 then
      sgr_go ps fuel (i + 1) { pen with fg := (prm : Int) - 90, attrs := pen.attrs ||| 1 }
    else if 100 ≤ prm ∧ prm ≤ 107 then sgr_go ps fuel (i + 1) { pen with bg := (prm : Int) - 100 }
    else sgr_go ps fuel (i + 1) pen
  else pen) := rfl

theorem sgr_go_stop (ps : VteParams) (fuel i : Nat) (pen : SgrPen)
    (h : ¬ i < vte_params_len ps) : sgr_go ps fuel i pen = pen := by
  cases fuel with
  | zero => rfl
  | succ f => rw [sgr_go_succ, if_neg h]

theorem sgr_go_ext_fg5 (ps : VteParams) (fuel i : Nat) (pen : SgrPen)
    (hprm : vte_params_get_single ps i 0 = 38)
    (hcm : vte_params_get_single ps (i + 1) 0 = 5)
    (h2 : i + 2 < vte_params_len ps) :
    sgr_go ps (fuel + 1) i pen =
      sgr_go ps fuel (i + 3) { pen with fg := (vte_params_get_single ps (i + 2) 0 : Int) } := by
  have hi : i < vte_params_len ps := by omega
  have h1 : i + 1 < vte_params_len ps := by omega
  rw [sgr_go_succ, if_pos hi]
  simp only [hprm, hcm]
  norm_num [h1, h2]

theorem sgr_go_ext_bg5 (ps : VteParams) (fuel i : Nat) (pen : SgrPen)
    (hprm : vte_params_get_single ps i 0 = 48)
    (hcm : vte_params_get_single ps (i + 1) 0 = 5)
    (h2 : i + 2 < vte_params_len ps) :
    sgr_go ps (fuel + 1) i pen =
      sgr_go ps fuel (i + 3) { pen with bg := (vte_params_get_single ps (i + 2) 0 : Int) } := by
  have hi : i < vte_params_len ps := by omega
  have h1 : i + 1 < vte_params_len ps := by omega
  rw [sgr_go_succ, if_pos hi]
  simp only [hprm, hcm]
  norm_num [h1, h2]

theorem sgr_go_ext_fg2 (ps : VteParams) (fuel i : Nat) (pen : SgrPen)
    (hprm : vte_params_get_single ps i 0 = 38)
    (hcm : vte_params_get_single ps (i + 1) 0 = 2)
    (h4 : i + 4 < vte_params_len ps) :
    sgr_go ps (fuel + 1) i pen =
      sgr_go ps fuel (i + 5)
        { pen with fg := (sgr_rgb (vte_params_get_single ps (i + 2) 0)
            (vte_params_get_single ps (i + 3) 0) (vte_params_get_single ps (i + 4) 0) : Int) } := by
  have hi : i < vte_params_len ps := by omega
  have h1 : i + 1 < vte_params_len ps := by omega
  rw [sgr_go_succ, if_pos hi]
  simp only [hprm, hcm]
  norm_num [h1, h4]

theorem sgr_go_ext_bg2 (ps : VteParams) (fuel i : Nat) (pen : SgrPen)
    (hprm : vte_params_get_single ps i 0 = 48)
    (hcm : vte_params_get_single ps (i + 1) 0 = 2)
    (h4 : i + 4 < vte_params_len ps) :
    sgr_go ps (fuel + 1) i pen =
      sgr_go ps fuel (i + 5)
        { pen with bg := (sgr_rgb (vte_params_get_single ps (i + 2) 0)
            (vte_params_get_single ps (i + 3) 0) (vte_params_get_single ps (i + 4) 0) : Int) } := by
  have hi : i < vte_params_len ps := by omega
  have h1 : i + 1 < vte_params_len ps := by omega
  rw [sgr_go_succ, if_pos hi]
  simp only [hprm, hcm]
  norm_num [h1, h4]

/-! ### C3: SGR extended colors -/

/-- The `m` case of `enhanced_csi_dispatch`, exposed. -/
theorem enhanced_csi_dispatch_m (p : Panel) (ps : VteParams) (ints : List Nat) :
    enhanced_csi_dispatch p ps ints false 109 =
      (if vte_params_len ps = 0 then { p with fg_color := -1, bg_color := -1, attrs := 0 }
       else
         let pen := sgr_loop ps ⟨p.fg_color, p.bg_color, p.attrs⟩
         { p with fg_color := pen.fg, bg_color := pen.bg, attrs := pen.attrs }) := rfl

/-- Three primary parameters, as produced by `a;b;c`. -/
def sgr_params3 (a b c : Nat) : VteParams :=
  vte_params_push (vte_params_push (vte_params_push vte_params_clear a) b) c

/-- Five primary parameters, as produced by `a;b;c;d;e`. -/
def sgr_params5 (a b c d e : Nat) : VteParams :=
  vte_params_push (vte_params_push (vte_params_push
    (vte_params_push (vte_params_push vte_params_clear a) b) c) d) e

/-- The parameter container produced by `a:b:c` (a subparameter chain
finalized by the dispatch push): one primary group `[a, b]` followed by
the primary `c`. -/
def sgr_subparams3 (a b c : Nat) : VteParams :=
  vte_params_push (vte_params_extend (vte_params_extend vte_params_clear a) b) c

theorem sgr_params3_eq (a b c : Nat) : sgr_params3 a b c = ⟨[a, b, c], [1, 1, 1], 0⟩ := rfl

theorem sgr_params5_eq (a b c d e : Nat) :
    sgr_params5 a b c d e = ⟨[a, b, c, d, e], [1, 1, 1, 1, 1], 0⟩ := rfl

theorem sgr_subparams3_eq (a b c : Nat) :
    sgr_subparams3 a b c = ⟨[a, b, c], [2, 0, 1], 0⟩ := rfl

theorem sgr_params3_len (a b c : Nat) : vte_params_len ⟨[a, b, c], [1, 1, 1], 0⟩ = 3 := by
  simp [vte_params_len, vte_params_count_go, vte_params_stride]

theorem sgr_params5_len (a b c d e : Nat) :
    vte_params_len ⟨[a, b, c, d, e], [1, 1, 1, 1, 1], 0⟩ = 5 := by
  simp [vte_params_len, vte_params_count_go, vte_params_stride]

theorem sgr_params3_get (a b c : Nat) :
    vte_params_get_single ⟨[a, b, c], [1, 1, 1], 0⟩ 0 0 = a ∧
    vte_params_get_single ⟨[a, b, c], [1, 1, 1], 0⟩ 1 0 = b ∧
    vte_params_get_single ⟨[a, b, c], [1, 1, 1], 0⟩ 2 0 = c := by
  refine ⟨?_, ?_, ?_⟩ <;> simp [vte_params_get_single, vte_params_pos, vte_params_stride]

theorem sgr_params5_get (a b c d e : Nat) :
    vte_params_get_single ⟨[a, b, c, d, e], [1, 1, 1, 1, 1], 0⟩ 0 0 = a ∧
    vte_params_get_single ⟨[a, b, c, d, e], [1, 1, 1, 1, 1], 0⟩ 1 0 = b ∧
    vte_params_get_single ⟨[a, b, c, d, e], [1, 1, 1, 1, 1], 0⟩ 2 0 = c ∧
    vte_params_get_single ⟨[a, b, c, d, e], [1, 1, 1, 1, 1], 0⟩ 3 0 = d ∧
    vte_params_get_single ⟨[a, b, c, d, e], [1, 1, 1, 1, 1], 0⟩ 4 0 = e := by
  refine ⟨?_, ?_, ?_, ?_, ?_⟩ <;> simp [vte_params_get_single, vte_params_pos, vte_params_stride]


theorem sgr_loop_fg256 (pen : SgrPen) (n : Nat) :
    sgr_loop ⟨[38, 5, n], [1, 1, 1], 0⟩ pen = { pen with fg := (n : Int) } := by
  obtain ⟨h0, h1, h2⟩ := sgr_params3_get 38 5 n
  have hl := sgr_params3_len 38 5 n
  rw [sgr_loop, hl, show (3 : Nat) = 2 + 1 from rfl,
    sgr_go_ext_fg5 _ _ _ _ h0 (by simpa using h1) (by omega),
    sgr_go_stop _ _ _ _ (by omega)]
  simp [h2]

theorem sgr_loop_bg256 (pen : SgrPen) (n : Nat) :
    sgr_loop ⟨[48, 5, n], [1, 1, 1], 0⟩ pen = { pen with bg := (n : Int) } := by
  obtain ⟨h0, h1, h2⟩ := sgr_params3_get 48 5 n
  have hl := sgr_params3_len 48 5 n
  rw [sgr_loop, hl, show (3 : Nat) = 2 + 1 from rfl,
    sgr_go_ext_bg5 _ _ _ _ h0 (by simpa using h1) (by omega),
    sgr_go_stop _ _ _ _ (by omega)]
  simp [h2]

theorem sgr_loop_fg_rgb (pen : SgrPen) (r g b : Nat) :
    sgr_loop ⟨[38, 2, r, g, b], [1, 1, 1, 1, 1], 0⟩ pen =
      { pen with fg := (sgr_rgb r g b : Int) } := by
  obtain ⟨h0, h1, h2, h3, h4⟩ := sgr_params5_get 38 2 r g b
  have hl := sgr_params5_len 38 2 r g b
  rw [sgr_loop, hl, show (5 : Nat) = 4 + 1 from rfl,
    sgr_go_ext_fg2 _ _ _ _ h0 (by simpa using h1) (by omega),
    sgr_go_stop _ _ _ _ (by omega)]
  simp [h2, h3, h4]

theorem sgr_loop_bg_rgb (pen : SgrPen) (r g b : Nat) :
    sgr_loop ⟨[48, 2, r, g, b], [1, 1, 1, 1, 1], 0⟩ pen =
      { pen with bg := (sgr_rgb r g b : Int) } := by
  obtain ⟨h0, h1, h2, h3, h4⟩ := sgr_params5_get 48 2 r g b
  have hl := sgr_params5_len 48 2 r g b
  rw [sgr_loop, hl, show (5 : Nat) = 4 + 1 from rfl,
    sgr_go_ext_bg2 _ _ _ _ h0 (by simpa using h1) (by omega),
    sgr_go_stop _ _ _ _ (by omega)]
  simp [h2, h3, h4]

theorem sgr_fg_256 (p : Panel) (n : Nat) :
    enhanced_csi_dispatch p (sgr_params3 38 5 n) [] false 109 =
      { p with fg_color := (n : Int) } := by
  rw [sgr_params3_eq, enhanced_csi_dispatch_m, if_neg (by rw [sgr_params3_len]; omega)]
  rw [sgr_loop_fg256]

theorem sgr_bg_256 (p : Panel) (n : Nat) :
    enhanced_csi_dispatch p (sgr_params3 48 5 n) [] false 109 =
      { p with bg_color := (n : Int) } := by
  rw [sgr_params3_eq, enhanced_csi_dispatch_m, if_neg (by rw [sgr_params3_len]; omega)]
  rw [sgr_loop_bg256]

theorem sgr_fg_rgb (p : Panel) (r g b : Nat) :
    enhanced_csi_dispatch p (sgr_params5 38 2 r g b) [] false 109 =
      { p with fg_color := (sgr_rgb r g b : Int) } := by
  rw [sgr_params5_eq, enhanced_csi_dispatch_m, if_neg (by rw [sgr_params5_len]; omega)]
  rw [sgr_loop_fg_rgb]

theorem sgr_bg_rgb (p : Panel) (r g b : Nat) :
    enhanced_csi_dispatch p (sgr_params5 48 2 r g b) [] false 109 =
      { p with bg_color := (sgr_rgb r g b : Int) } := by
  rw [sgr_params5_eq, enhanced_csi_dispatch_m, if_neg (by rw [sgr_params5_len]; omega)]
  rw [sgr_loop_bg_rgb]

theorem sgr_subparams_facts :
    vte_params_len ⟨[38, 5, 196], [2, 0, 1], 0⟩ = 2 ∧
    vte_params_get_single ⟨[38, 5, 196], [2, 0, 1], 0⟩ 0 0 = 38 ∧
    vte_params_get_single ⟨[38, 5, 196], [2, 0, 1], 0⟩ 1 0 = 196 ∧
    vte_params_get ⟨[38, 5, 196], [2, 0, 1], 0⟩ 0 = some [38, 5] := by
  refine ⟨?_, ?_, ?_, ?_⟩ <;>
    simp [vte_params_len, vte_params_count_go, vte_params_get_single, vte_params_get,
      vte_params_pos, vte_params_stride]

theorem sgr_go_38_cm196 (ps : VteParams) (fuel f i : Nat) (pen : SgrPen)
    (hf : fuel = f + 1)
    (hprm : vte_params_get_single ps i 0 = 38)
    (hcm : vte_params_get_single ps (i + 1) 0 = 196)
    (hlt : i < vte_params_len ps) (h1 : i + 1 < vte_params_len ps) :
    sgr_go ps fuel i pen = sgr_go ps f (i + 1) pen := by
  subst hf
  rw [sgr_go_succ, if_pos hlt]
  simp only [hprm, hcm]
  norm_num [h1]

theorem sgr_go_196_skip (ps : VteParams) (fuel f i : Nat) (pen : SgrPen)
    (hf : fuel = f + 1)
    (hprm : vte_params_get_single ps i 0 = 196)
    (hlt : i < vte_params_len ps) :
    sgr_go ps fuel i pen = sgr_go ps f (i + 1) pen := by
  subst hf
  rw [sgr_go_succ, if_pos hlt]
  simp only [hprm]
  norm_num

theorem sgr_subparam_form_noop (p : Panel) :
    enhanced_csi_dispatch p (sgr_subparams3 38 5 196) [] false 109 = p := by
  obtain ⟨hl, h0, h1, _⟩ := sgr_subparams_facts
  rw [sgr_subparams3_eq, enhanced_csi_dispatch_m, if_neg (by rw [hl]; omega)]
  rw [sgr_loop, hl,
    sgr_go_38_cm196 _ 2 1 0 _ rfl h0 (by simpa using h1) (by omega) (by omega),
    sgr_go_196_skip _ 1 0 (0 + 1) _ rfl (by simpa using h1) (by omega),
    sgr_go_stop _ _ _ _ (by omega)]

/-- C3, as stated, is false: the extra extended-color values are accepted
only as additional primary parameters.  Feeding `ESC [ 38:5:196 m`
leaves the pen foreground at the default -1, while `ESC [ 38;5;196 m`
sets it to 196 — the two forms do not produce identical pen colors. -/
theorem c3_counterexample :
    (vte_feed scenario_st
      [0x1B, 0x5B, 0x33, 0x38, 0x3A, 0x35, 0x3A, 0x31, 0x39, 0x36, 0x6D]).1.fg_color = -1 ∧
    (vte_feed scenario_st
      [0x1B, 0x5B, 0x33, 0x38, 0x3B, 0x35, 0x3B, 0x31, 0x39, 0x36, 0x6D]).1.fg_color = 196 ∧
    ¬ ((-1 : Int) = 196) := by decide

/-- C3 (amended): in SGR, code 38 (48 for the background) begins an
extended color only when the extra values arrive as additional primary
parameters: a following primary 5 consumes one more primary as a
256-color index, and a following primary 2 consumes three more as R,G,B
mapped to `(r>127) ||| (g>127)<<1 ||| (b>127)<<2`.  When the extra
values arrive as subparameters of the 38/48 entry (e.g. 38:5:196) they
are grouped under the 38 primary and never consumed: the pen is left
unchanged by the 38 entry, and the value finalized by the dispatch push
is read as an independent SGR code (196 itself is a no-op).  After
feeding `ESC [ 38;5;196 m Z` the pen foreground is 196 when Z is
written. -/
theorem c3_sgr_extended_colors :
    (∀ (p : Panel) (n : Nat),
      enhanced_csi_dispatch p (sgr_params3 38 5 n) [] false 109 =
        { p with fg_color := (n : Int) }) ∧
    (∀ (p : Panel) (n : Nat),
      enhanced_csi_dispatch p (sgr_params3 48 5 n) [] false 109 =
        { p with bg_color := (n : Int) }) ∧
    (∀ (p : Panel) (r g b : Nat),
      enhanced_csi_dispatch p (sgr_params5 38 2 r g b) [] false 109 =
        { p with fg_color := (sgr_rgb r g b : Int) }) ∧
    (∀ (p : Panel) (r g b : Nat),
      enhanced_csi_dispatch p (sgr_params5 48 2 r g b) [] false 109 =
        { p with bg_color := (sgr_rgb r g b : Int) }) ∧
    (∀ (r g b : Nat),
      sgr_rgb r g b = ((if r > 127 then 1 else 0) |||
        ((if g > 127 then 1 else 0) <<< 1) ||| ((if b > 127 then 1 else 0) <<< 2))) ∧
    (∀ p : Panel, enhanced_csi_dispatch p (sgr_subparams3 38 5 196) [] false 109 = p) ∧
    (vte_params_len (sgr_subparams3 38 5 196) = 2 ∧
      vte_params_get (sgr_subparams3 38 5 196) 0 = some [38, 5] ∧
      vte_params_get_single (sgr_subparams3 38 5 196) 1 0 = 196) ∧
    (let p := (vte_feed scenario_st
        [0x1B, 0x5B, 0x33, 0x38, 0x3B, 0x35, 0x3B, 0x31, 0x39, 0x36, 0x6D, 0x5A]).1
     p.fg_color = 196 ∧ (screen_cell p 0 0).fg_color = 196 ∧
      (screen_cell p 0 0).codepoint = 0x5A) := by
  refine ⟨sgr_fg_256, sgr_bg_256, sgr_fg_rgb, sgr_bg_rgb, ?_, sgr_subparam_form_noop,
    ⟨?_, ?_, ?_⟩, by decide⟩
  · intro r g b
    delta sgr_rgb
    by_cases hr : r > 127 <;> by_cases hg : g > 127 <;> by_cases hb : b > 127 <;>
      simp [hr, hg, hb]
  · rw [sgr_subparams3_eq]; exact sgr_subparams_facts.1
  · rw [sgr_subparams3_eq]; exact sgr_subparams_facts.2.2.2
  · rw [sgr_subparams3_eq]; exact sgr_subparams_facts.2.2.1

theorem vte_advance_go_cons (fuel : Nat) (p : VteParser) (b : Nat) (rest : List Nat) :
    vte_advance_go (fuel + 1) p (b :: rest) =
      (if p.state = VteState.ground then
      if b = 0x1B then
        vte_advance_go fuel { vte_reset_params p with state := VteState.escape } rest
      else if 0x80 ≤ b then
        match vte_utf8_char_len b, rest with
        | 2, b1 :: rest2 =>
          let r := vte_advance_go fuel p rest2
          (r.1, VteEvent.print (vte_utf8_decode [b, b1]) :: r.2)
        | 3, b1 :: b2 :: rest3 =>
          let r := vte_advance_go fuel p rest3
          (r.1, VteEvent.print (vte_utf8_decode [b, b1, b2]) :: r.2)
        | 4, b1 :: b2 :: b3 :: rest4 =>
          let r := vte_advance_go fuel p rest4
          (r.1, VteEvent.print (vte_utf8_decode [b, b1, b2, b3]) :: r.2)
        | _, _ =>
          let r := vte_advance_go fuel p rest
          (r.1, VteEvent.print 0xFFFD :: r.2)
      else if 0x20 ≤ b ∧ b ≤ 0x7E then
        let r := vte_advance_go fuel p rest
        (r.1, VteEvent.print b :: r.2)
      else
        let r := vte_advance_go fuel p rest
        (r.1, VteEvent.execute b :: r.2)
    else
      let s := vte_step p b
      let r := vte_advance_go fuel s.1 rest
      (r.1, s.2 ++ r.2)) := rfl

/-! ### C7: parameter saturation -/

/-- The decimal number written by a sequence of digit bytes, continuing
an already-read value. -/
def decimal_value_from (n : Nat) (ds : List Nat) : Nat :=
  ds.foldl (fun acc d => acc * 10 + (d - 0x30)) n

/-- The decimal number written by a sequence of digit bytes. -/
def decimal_value (ds : List Nat) : Nat := decimal_value_from 0 ds

theorem paramnext_saturates (cur N d : Nat) (hd : d ≤ 9) (hcur : cur = min N 65535) :
    (if cur ≤ (65535 - d) / 10 then cur * 10 + d else 65535) = min (N * 10 + d) 65535 := by
  split_ifs <;> omega

theorem vte_step_csi_param_digit (p : VteParser) (d : Nat)
    (hstate : p.state = VteState.csi_param) (hd : 0x30 ≤ d ∧ d ≤ 0x39) :
    vte_step p d = (vte_action_paramnext p d, []) := by
  obtain ⟨st, prms, cur, ints, ign, oraw, oparams⟩ := p
  cases hstate
  show vte_advance_csi_param _ d = _
  delta vte_advance_csi_param
  rw [if_neg (by omega), if_neg (by omega), if_pos hd]

theorem vte_action_paramnext_digit (p : VteParser) (d : Nat)
    (hfull : ¬ p.params.data.length ≥ VTE_MAX_PARAMS) (hd : 0x30 ≤ d ∧ d ≤ 0x39) :
    vte_action_paramnext p d =
      { p with current_param :=
          if p.current_param ≤ (65535 - (d - 0x30)) / 10 then
            p.current_param * 10 + (d - 0x30)
          else 65535 } := by
  delta vte_action_paramnext
  rw [if_neg (by simpa [vte_params_is_full] using hfull)]
  have : (d + 65536 - 0x30) % 65536 = d - 0x30 := by omega
  rw [this]
  dsimp only
  split_ifs <;> rfl

theorem advance_digits_csi_param (ds : List Nat) : ∀ (rest : List Nat) (p : VteParser) (N : Nat),
    (∀ d ∈ ds, 0x30 ≤ d ∧ d ≤ 0x39) →
    p.state = VteState.csi_param →
    ¬ p.params.data.length ≥ VTE_MAX_PARAMS →
    p.current_param = min N 65535 →
    vte_advance_go (ds.length + rest.length) p (ds ++ rest) =
      vte_advance_go rest.length
        { p with current_param := min (decimal_value_from N ds) 65535 } rest := by
  induction ds with
  | nil =>
    intro rest p N _ _ _ hcur
    have : { p with current_param := min (decimal_value_from N []) 65535 } = p := by
      rw [show decimal_value_from N [] = N from rfl, ← hcur]
    rw [this]
    simp
  | cons d ds ih =>
    intro rest p N hds hstate hfull hcur
    have hd : 0x30 ≤ d ∧ d ≤ 0x39 := hds d (by simp)
    rw [show (d :: ds) ++ rest = d :: (ds ++ rest) from rfl,
      show (d :: ds).length + rest.length = (ds.length + rest.length) + 1 by simp; omega,
      vte_advance_go_cons]
    rw [if_neg (by rw [hstate]; intro hc; cases hc)]
    rw [vte_step_csi_param_digit p d hstate hd]
    rw [vte_action_paramnext_digit p d hfull hd]
    rw [paramnext_saturates p.current_param N (d - 0x30) (by omega) hcur]
    show vte_advance_go (ds.length + rest.length)
      { p with current_param := min (N * 10 + (d - 0x30)) 65535 } (ds ++ rest) = _
    rw [ih rest { p with current_param := min (N * 10 + (d - 0x30)) 65535 }
      (N * 10 + (d - 0x30)) (fun x hx => hds x (by simp [hx])) hstate hfull rfl]
    simp [decimal_value_from]

theorem vte_step_csi_param_m (p : VteParser)
    (hstate : p.state = VteState.csi_param)
    (hfull : ¬ p.params.data.length ≥ VTE_MAX_PARAMS) :
    vte_step p 0x6D =
      ({ p with params := vte_params_push p.params p.current_param,
                state := VteState.ground },
       [VteEvent.csi_dispatch (vte_params_push p.params p.current_param)
          p.intermediates p.ignoring 0x6D]) := by
  obtain ⟨st, prms, cur, ints, ign, oraw, oparams⟩ := p
  cases hstate
  show vte_advance_csi_param _ 0x6D = _
  delta vte_advance_csi_param
  rw [if_neg (by decide), if_neg (by decide), if_neg (by decide), if_neg (by decide),
    if_neg (by decide), if_neg (by decide), if_pos (by decide)]
  delta vte_action_csi_dispatch
  dsimp only
  rw [if_pos (by simpa [vte_params_is_full] using hfull)]

/-- C7: parameter saturation.  Feeding `ESC [`, then any nonempty run of
decimal digit bytes, then the final byte `m` from the initial parser state
dispatches a CSI whose single parameter is the written decimal number
saturated at 65535 (never wrapped), with `ignore = false`. -/
theorem c7_param_saturation (ds : List Nat) (hne : ds ≠ [])
    (hds : ∀ d ∈ ds, 0x30 ≤ d ∧ d ≤ 0x39) :
    (vte_parser_advance vte_parser_init ([0x1B, 0x5B] ++ ds ++ [0x6D])).2 =
      [VteEvent.csi_dispatch ⟨[min (decimal_value ds) 65535], [1], 0⟩ [] false 0x6D] := by
  obtain ⟨d, ds', rfl⟩ : ∃ d ds', ds = d :: ds' := by
    cases ds with
    | nil => exact absurd rfl hne
    | cons a l => exact ⟨a, l, rfl⟩
  have hd : 0x30 ≤ d ∧ d ≤ 0x39 := hds d (by simp)
  delta vte_parser_advance
  rw [show [0x1B, 0x5B] ++ (d :: ds') ++ [0x6D] = 0x1B :: 0x5B :: d :: (ds' ++ [0x6D]) from by
    simp]
  simp only [List.length_cons]
  rw [vte_advance_go_cons, if_pos (show vte_parser_init.state = VteState.ground from rfl),
    if_pos (rfl : (0x1B : Nat) = 0x1B)]
  rw [show { vte_reset_params vte_parser_init with state := VteState.escape } =
      (⟨VteState.escape, ⟨[], [], 0⟩, 0, [], false, [], []⟩ : VteParser) from rfl]
  rw [vte_advance_go_cons, if_neg (by decide)]
  show (vte_advance_go ((ds' ++ [0x6D]).length + 1)
      (⟨VteState.csi_entry, ⟨[], [], 0⟩, 0, [], false, [], []⟩ : VteParser)
      (d :: (ds' ++ [0x6D]))).2 = _
  have hstepd : vte_step (⟨VteState.csi_entry, ⟨[], [], 0⟩, 0, [], false, [], []⟩ : VteParser) d =
      ((⟨VteState.csi_param, ⟨[], [], 0⟩, d - 0x30, [], false, [], []⟩ : VteParser), []) := by
    show vte_advance_csi_entry _ d = _
    delta vte_advance_csi_entry
    rw [if_neg (by omega), if_neg (by omega), if_pos hd]
    rw [vte_action_paramnext_digit _ d (by decide) hd]
    dsimp only
    rw [if_pos (Nat.zero_le _), show 0 * 10 + (d - 0x30) = d - 0x30 from by omega]
  rw [vte_advance_go_cons, if_neg (by decide), hstepd]
  show (vte_advance_go ((ds' ++ [0x6D]).length)
      (⟨VteState.csi_param, ⟨[], [], 0⟩, d - 0x30, [], false, [], []⟩ : VteParser)
      (ds' ++ [0x6D])).2 = _
  rw [List.length_append,
    advance_digits_csi_param ds' [0x6D] _ (d - 0x30)
      (fun x hx => hds x (by simp [hx])) rfl
      (show ¬ ([] : List Nat).length ≥ VTE_MAX_PARAMS by decide)
      (show d - 0x30 = min (d - 0x30) 65535 by omega)]
  simp only [List.length_cons, List.length_nil]
  rw [vte_advance_go_cons,
    if_neg (show ¬ VteState.csi_param = VteState.ground by decide),
    vte_step_csi_param_m _ rfl (show ¬ ([] : List Nat).length ≥ VTE_MAX_PARAMS by decide)]
  simp [vte_params_push, VTE_MAX_PARAMS, decimal_value, decimal_value_from]
  rfl

theorem c7_param_saturation_witness :
    (vte_parser_advance vte_parser_init
        ([0x1B, 0x5B] ++ [0x39, 0x39, 0x39, 0x39, 0x39] ++ [0x6D])).2 =
      [VteEvent.csi_dispatch ⟨[65535], [1], 0⟩ [] false 0x6D] := by
  rw [c7_param_saturation [0x39, 0x39, 0x39, 0x39, 0x39] (by decide) (by decide)]
  decide
/-! ### C8: save/restore round trip -/

/-- The saved-cursor slot of a panel: saved cursor position and saved pen
(foreground, background, attributes). -/
def saved_slot (p : Panel) : Int × Int × Int × Int × Nat :=
  (p.saved_cursor_x, p.saved_cursor_y, p.saved_fg_color, p.saved_bg_color, p.saved_attrs)

/-- Events whose dispatch writes the saved-cursor slot: CSI `s` (save,
action 115), ESC `7` (DECSC) and ESC `c` (RIS, which resets the slot via
`terminal_panel_init`). -/
def writes_saved_slot : VteEvent → Bool
  | VteEvent.csi_dispatch _ _ ign a => !ign && a == 115
  | VteEvent.esc_dispatch _ ign b => !ign && (b == 0x37 || b == 0x63)
  | _ => false

theorem enhanced_print_saved (p : Panel) (cp : Nat) :
    saved_slot (enhanced_print p cp) = saved_slot p := by
  delta enhanced_print
  dsimp only
  by_cases hg : 0 ≤ p.cursor_y ∧ p.cursor_y < p.screen_height ∧
      0 ≤ p.cursor_x ∧ p.cursor_x < p.screen_width
  · rw [if_pos hg]
    by_cases hins : p.modes.insert_mode
    · rw [if_pos hins]
      obtain ⟨s1, hs1⟩ := terminal_insert_chars_screen_only p 1
      rw [hs1]; try rfl
      try dsimp only
      by_cases hwrap : p.cursor_x + 1 ≥ p.screen_width
      · rw [if_pos hwrap]
        by_cases haw : p.modes.auto_wrap
        · rw [if_pos haw]
          try dsimp only
          by_cases hyb : p.cursor_y + 1 > p.scroll_bottom
          · rw [if_pos hyb]
            obtain ⟨s2, hs2⟩ := terminal_scroll_up_screen_only _ 1
            rw [hs2]; try rfl
          · rw [if_neg hyb]; try rfl
        · rw [if_neg haw]; try rfl
      · rw [if_neg hwrap]; try rfl
    · rw [if_neg hins]
      try dsimp only
      by_cases hwrap : p.cursor_x + 1 ≥ p.screen_width
      · rw [if_pos hwrap]
        by_cases haw : p.modes.auto_wrap
        · rw [if_pos haw]
          try dsimp only
          by_cases hyb : p.cursor_y + 1 > p.scroll_bottom
          · rw [if_pos hyb]
            obtain ⟨s2, hs2⟩ := terminal_scroll_up_screen_only _ 1
            rw [hs2]; try rfl
          · rw [if_neg hyb]; try rfl
        · rw [if_neg haw]; try rfl
      · rw [if_neg hwrap]; try rfl
  · rw [if_neg hg]; try rfl

theorem enhanced_execute_saved (p : Panel) (b : Nat) :
    saved_slot (enhanced_execute p b) = saved_slot p := by
  delta enhanced_execute
  by_cases h1 : b = 0x07
  · rw [if_pos h1]; try rfl
  rw [if_neg h1]
  by_cases h2 : b = 0x08
  · rw [if_pos h2]
    by_cases hx : p.cursor_x > 0
    · rw [if_pos hx]; try rfl
    · rw [if_neg hx]; try rfl
  rw [if_neg h2]
  by_cases h3 : b = 0x09
  · rw [if_pos h3]; delta terminal_tab_forward; try rfl
  rw [if_neg h3]
  by_cases h4 : b = 0x0A ∨ b = 0x0B ∨ b = 0x0C
  · rw [if_pos h4]
    dsimp only
    by_cases hc : p.cursor_y ≥ p.scroll_bottom
    · rw [if_pos hc]
      obtain ⟨s, hs⟩ := terminal_scroll_up_screen_only { p with cursor_x := 0 } 1
      rw [hs]; try rfl
    · rw [if_neg hc]; try rfl
  rw [if_neg h4]
  by_cases h5 : b = 0x0D
  · rw [if_pos h5]; try rfl
  rw [if_neg h5]
  by_cases h6 : b = 0x0E
  · rw [if_pos h6]; try rfl
  rw [if_neg h6]
  by_cases h7 : b = 0x0F
  · rw [if_pos h7]; try rfl
  rw [if_neg h7]
  by_cases h8 : b = 0x84
  · rw [if_pos h8]
    by_cases hc : p.cursor_y ≥ p.scroll_bottom
    · rw [if_pos hc]
      obtain ⟨s, hs⟩ := terminal_scroll_up_screen_only p 1
      rw [hs]; try rfl
    · rw [if_neg hc]; try rfl
  rw [if_neg h8]
  by_cases h9 : b = 0x85
  · rw [if_pos h9]
    dsimp only
    by_cases hc : p.cursor_y ≥ p.scroll_bottom
    · rw [if_pos hc]
      obtain ⟨s, hs⟩ := terminal_scroll_up_screen_only { p with cursor_x := 0 } 1
      rw [hs]; try rfl
    · rw [if_neg hc]; try rfl
  rw [if_neg h9]
  by_cases h10 : b = 0x88
  · rw [if_pos h10]
    delta terminal_set_tab_stop
    by_cases hc : 0 ≤ p.cursor_x ∧ p.cursor_x < 256
    · rw [if_pos hc]; try rfl
    · rw [if_neg hc]; try rfl
  rw [if_neg h10]
  by_cases h11 : b = 0x8D
  · rw [if_pos h11]
    by_cases hc : p.cursor_y ≤ p.scroll_top
    · rw [if_pos hc]
      obtain ⟨s, hs⟩ := terminal_scroll_down_screen_only p 1
      rw [hs]; try rfl
    · rw [if_neg hc]; try rfl
  rw [if_neg h11]; try rfl

theorem enhanced_esc_dispatch_saved (p : Panel) (ints : List Nat) (ignore : Bool)
    (b : Nat) (hb : ignore = true ∨ (b ≠ 0x37 ∧ b ≠ 0x63)) :
    saved_slot (enhanced_esc_dispatch p ints ignore b) = saved_slot p := by
  delta enhanced_esc_dispatch
  by_cases hig : ignore
  · rw [if_pos hig]; try rfl
  rw [if_neg hig]
  have hb' : b ≠ 0x37 ∧ b ≠ 0x63 := hb.resolve_left (by simpa using hig)
  rw [if_neg hb'.1]
  by_cases h2 : b = 0x38
  · rw [if_pos h2]; delta terminal_restore_cursor; try rfl
  rw [if_neg h2]
  rw [if_neg hb'.2]
  by_cases h4 : b = 0x44
  · rw [if_pos h4]
    by_cases hc : p.cursor_y ≥ p.scroll_bottom
    · rw [if_pos hc]
      obtain ⟨s, hs⟩ := terminal_scroll_up_screen_only p 1
      rw [hs]; try rfl
    · rw [if_neg hc]; try rfl
  rw [if_neg h4]
  by_cases h5 : b = 0x45
  · rw [if_pos h5]
    dsimp only
    by_cases hc : p.cursor_y ≥ p.scroll_bottom
    · rw [if_pos hc]
      obtain ⟨s, hs⟩ := terminal_scroll_up_screen_only { p with cursor_x := 0 } 1
      rw [hs]; try rfl
    · rw [if_neg hc]; try rfl
  rw [if_neg h5]
  by_cases h6 : b = 0x48
  · rw [if_pos h6]
    delta terminal_set_tab_stop
    by_cases hc : 0 ≤ p.cursor_x ∧ p.cursor_x < 256
    · rw [if_pos hc]; try rfl
    · rw [if_neg hc]; try rfl
  rw [if_neg h6]
  by_cases h7 : b = 0x4D
  · rw [if_pos h7]
    by_cases hc : p.cursor_y ≤ p.scroll_top
    · rw [if_pos hc]
      obtain ⟨s, hs⟩ := terminal_scroll_down_screen_only p 1
      rw [hs]; try rfl
    · rw [if_neg hc]; try rfl
  rw [if_neg h7]
  by_cases h8 : b = 0x5A
  · rw [if_pos h8]; try rfl
  rw [if_neg h8]
  by_cases h9 : b = 0x3D
  · rw [if_pos h9]; try rfl
  rw [if_neg h9]
  by_cases h10 : b = 0x3E
  · rw [if_pos h10]; try rfl
  rw [if_neg h10]
  by_cases h11 : b = 0x4E ∨ b = 0x4F
  · rw [if_pos h11]; try rfl
  rw [if_neg h11]
  by_cases h12 : ints.length = 1
  · rw [if_pos h12]
    dsimp only
    by_cases h13 : ints.getD 0 0 = 0x28
    · rw [if_pos h13]; try rfl
    rw [if_neg h13]
    by_cases h14 : ints.getD 0 0 = 0x29
    · rw [if_pos h14]; try rfl
    · rw [if_neg h14]; try rfl
  · rw [if_neg h12]; try rfl

set_option maxHeartbeats 1000000 in
theorem enhanced_csi_dispatch_saved (p : Panel) (ps : VteParams) (ints : List Nat)
    (ignore : Bool) (a : Nat) (ha : ignore = true ∨ a ≠ 115) :
    saved_slot (enhanced_csi_dispatch p ps ints ignore a) = saved_slot p := by
  delta enhanced_csi_dispatch
  by_cases hig : ignore
  · rw [if_pos hig]; try rfl
  rw [if_neg hig]
  have ha' : a ≠ 115 := ha.resolve_left (by simpa using hig)
  by_cases c1 : a = 65
  · rw [if_pos c1]; try rfl
  rw [if_neg c1]
  by_cases c2 : a = 66
  · rw [if_pos c2]; try rfl
  rw [if_neg c2]
  by_cases c3 : a = 67
  · rw [if_pos c3]; try rfl
  rw [if_neg c3]
  by_cases c4 : a = 68
  · rw [if_pos c4]; try rfl
  rw [if_neg c4]
  by_cases c5 : a = 69
  · rw [if_pos c5]; try rfl
  rw [if_neg c5]
  by_cases c6 : a = 70
  · rw [if_pos c6]; try rfl
  rw [if_neg c6]
  by_cases c7 : a = 71
  · rw [if_pos c7]; try rfl
  rw [if_neg c7]
  by_cases c8 : a = 72 ∨ a = 102
  · rw [if_pos c8]; try rfl
  rw [if_neg c8]
  by_cases c9 : a = 73
  · rw [if_pos c9]; delta terminal_tab_forward; try rfl
  rw [if_neg c9]
  by_cases c10 : a = 74
  · rw [if_pos c10]
    obtain ⟨s, hs⟩ := terminal_clear_screen_screen_only p (vte_params_get_single ps 0 0)
    rw [hs]; try rfl
  rw [if_neg c10]
  by_cases c11 : a = 75
  · rw [if_pos c11]
    obtain ⟨s, hs⟩ := terminal_clear_line_screen_only p (vte_params_get_single ps 0 0)
    rw [hs]; try rfl
  rw [if_neg c11]
  by_cases c12 : a = 76
  · rw [if_pos c12]
    obtain ⟨s, hs⟩ := terminal_insert_lines_screen_only p (vte_params_get_single ps 0 1)
    rw [hs]; try rfl
  rw [if_neg c12]
  by_cases c13 : a = 77
  · rw [if_pos c13]
    obtain ⟨s, hs⟩ := terminal_delete_lines_screen_only p (vte_params_get_single ps 0 1)
    rw [hs]; try rfl
  rw [if_neg c13]
  by_cases c14 : a = 80
  · rw [if_pos c14]
    obtain ⟨s, hs⟩ := terminal_delete_chars_screen_only p (vte_params_get_single ps 0 1)
    rw [hs]; try rfl
  rw [if_neg c14]
  by_cases c15 : a = 83
  · rw [if_pos c15]
    obtain ⟨s, hs⟩ := terminal_scroll_up_screen_only p (vte_params_get_single ps 0 1)
    rw [hs]; try rfl
  rw [if_neg c15]
  by_cases c16 : a = 84
  · rw [if_pos c16]
    obtain ⟨s, hs⟩ := terminal_scroll_down_screen_only p (vte_params_get_single ps 0 1)
    rw [hs]; try rfl
  rw [if_neg c16]
  by_cases c17 : a = 88
  · rw [if_pos c17]
    dsimp only
    by_cases hc : 0 ≤ p.cursor_y ∧ p.cursor_y < p.screen_height
    · rw [if_pos hc]; try rfl
    · rw [if_neg hc]; try rfl
  rw [if_neg c17]
  by_cases c18 : a = 90
  · rw [if_pos c18]; delta terminal_tab_backward; try rfl
  rw [if_neg c18]
  by_cases c19 : a = 64
  · rw [if_pos c19]
    obtain ⟨s, hs⟩ := terminal_insert_chars_screen_only p (vte_params_get_single ps 0 1)
    rw [hs]; try rfl
  rw [if_neg c19]
  by_cases c20 : a = 100
  · rw [if_pos c20]; try rfl
  rw [if_neg c20]
  by_cases c21 : a = 103
  · rw [if_pos c21]
    delta terminal_clear_tab_stop
    by_cases m0 : vte_params_get_single ps 0 0 = 0
    · rw [if_pos m0]
      by_cases hc : 0 ≤ p.cursor_x ∧ p.cursor_x < 256
      · rw [if_pos hc]; try rfl
      · rw [if_neg hc]; try rfl
    rw [if_neg m0]
    by_cases m3 : vte_params_get_single ps 0 0 = 3
    · rw [if_pos m3]; try rfl
    · rw [if_neg m3]; try rfl
  rw [if_neg c21]
  by_cases c22 : a = 104
  · rw [if_pos c22]; try rfl
  rw [if_neg c22]
  by_cases c23 : a = 108
  · rw [if_pos c23]; try rfl
  rw [if_neg c23]
  by_cases c24 : a = 109
  · rw [if_pos c24]
    by_cases hl : vte_params_len ps = 0
    · rw [if_pos hl]; try rfl
    · rw [if_neg hl]; try rfl
  rw [if_neg c24]
  by_cases c25 : a = 114
  · rw [if_pos c25]
    dsimp only
    by_cases hc : 0 ≤ (vte_params_get_single ps 0 1 : Int) - 1 ∧
        (vte_params_get_single ps 1 ((p.screen_height % 65536).toNat) : Int) - 1 < p.screen_height ∧
        (vte_params_get_single ps 0 1 : Int) - 1 <
          (vte_params_get_single ps 1 ((p.screen_height % 65536).toNat) : Int) - 1
    · rw [if_pos hc]; try rfl
    · rw [if_neg hc]; try rfl
  rw [if_neg c25]
  rw [if_neg ha']
  by_cases c27 : a = 117
  · rw [if_pos c27]; delta terminal_restore_cursor; try rfl
  rw [if_neg c27]; try rfl

theorem apply_event_saved (p : Panel) (e : VteEvent)
    (h : writes_saved_slot e = false) :
    saved_slot (apply_event p e) = saved_slot p := by
  cases e with
  | print cp => exact enhanced_print_saved p cp
  | execute b => exact enhanced_execute_saved p b
  | csi_dispatch ps ints ign a =>
    refine enhanced_csi_dispatch_saved p ps ints ign a ?_
    cases ign with
    | true => exact Or.inl rfl
    | false =>
      simp only [writes_saved_slot, Bool.not_false, Bool.true_and] at h
      exact Or.inr (by simpa using h)
  | esc_dispatch ints ign b =>
    refine enhanced_esc_dispatch_saved p ints ign b ?_
    cases ign with
    | true => exact Or.inl rfl
    | false =>
      simp only [writes_saved_slot, Bool.not_false, Bool.true_and] at h
      exact Or.inr (by simpa using h)
  | osc_dispatch x y => rfl
  | hook x y z w => rfl
  | put x => rfl
  | unhook => rfl

theorem apply_events_saved (evs : List VteEvent) : ∀ (p : Panel),
    (∀ e ∈ evs, writes_saved_slot e = false) →
    saved_slot (apply_events p evs) = saved_slot p := by
  induction evs with
  | nil => intro p _; rfl
  | cons e evs ih =>
    intro p h
    have h1 := apply_event_saved p e (h e (by simp))
    have h2 := ih (apply_event p e) (fun x hx => h x (by simp [hx]))
    exact h2.trans h1

/-- C8: save/restore round trip.  CSI `s` overwrites the single saved slot
with the current cursor and pen; after any sequence of dispatched events
that does not itself write the slot (no CSI `s`, ESC `7` or ESC `c`),
CSI `u` restores exactly the cursor position and pen from the time of the
save, and the slot survives the restore (it is not consumed).  The
original claim's arbitrary operation sequences are excluded by the
counterexample `c8_counterexample`: ESC `c` resets the slot. -/
theorem c8_save_restore_roundtrip (p : Panel) (evs : List VteEvent)
    (ps : VteParams) (ints : List Nat)
    (h : ∀ e ∈ evs, writes_saved_slot e = false) :
    saved_slot (enhanced_csi_dispatch p ps ints false 115) =
      (p.cursor_x, p.cursor_y, p.fg_color, p.bg_color, p.attrs) ∧
    ((enhanced_csi_dispatch
        (apply_events (enhanced_csi_dispatch p ps ints false 115) evs)
        ps ints false 117).cursor_x = p.cursor_x ∧
     (enhanced_csi_dispatch
        (apply_events (enhanced_csi_dispatch p ps ints false 115) evs)
        ps ints false 117).cursor_y = p.cursor_y ∧
     (enhanced_csi_dispatch
        (apply_events (enhanced_csi_dispatch p ps ints false 115) evs)
        ps ints false 117).fg_color = p.fg_color ∧
     (enhanced_csi_dispatch
        (apply_events (enhanced_csi_dispatch p ps ints false 115) evs)
        ps ints false 117).bg_color = p.bg_color ∧
     (enhanced_csi_dispatch
        (apply_events (enhanced_csi_dispatch p ps ints false 115) evs)
        ps ints false 117).attrs = p.attrs) ∧
    saved_slot (enhanced_csi_dispatch
        (apply_events (enhanced_csi_dispatch p ps ints false 115) evs)
        ps ints false 117) =
      saved_slot (apply_events (enhanced_csi_dispatch p ps ints false 115) evs) := by
  have hframe := apply_events_saved evs (enhanced_csi_dispatch p ps ints false 115) h
  simp only [saved_slot, Prod.mk.injEq] at hframe
  obtain ⟨h1, h2, h3, h4, h5⟩ := hframe
  exact ⟨rfl, ⟨h1, h2, h3, h4, h5⟩, rfl⟩

/-- C8 counterexample to the unrestricted claim: save at `(1, 0)` with
foreground 2, then ESC `c` (RIS), then CSI `u`.  The restore recovers the
slot reset by RIS, not the values at the time of the save. -/
theorem c8_counterexample :
    ¬ ((enhanced_csi_dispatch
          (enhanced_esc_dispatch
            (enhanced_csi_dispatch
              { mk_panel 4 3 with cursor_x := 1, fg_color := 2 }
              vte_params_clear [] false 115)
            [] false 0x63)
          vte_params_clear [] false 117).cursor_x = 1 ∧
       (enhanced_csi_dispatch
          (enhanced_esc_dispatch
            (enhanced_csi_dispatch
              { mk_panel 4 3 with cursor_x := 1, fg_color := 2 }
              vte_params_clear [] false 115)
            [] false 0x63)
          vte_params_clear [] false 117).fg_color = 2) := by decide

/-- Witness for C8: save at `(1, 1)` with foreground 2, print `A`, line
feed and clear; CSI `u` then restores cursor `(1, 1)` and foreground 2. -/
theorem c8_save_restore_roundtrip_witness :
    (∀ e ∈ [VteEvent.print 0x41, VteEvent.execute 0x0A,
            VteEvent.csi_dispatch vte_params_clear [] false 74],
       writes_saved_slot e = false) ∧
    (enhanced_csi_dispatch
        (apply_events
          (enhanced_csi_dispatch
            { mk_panel 4 3 with cursor_x := 1, cursor_y := 1, fg_color := 2 }
            vte_params_clear [] false 115)
          [VteEvent.print 0x41, VteEvent.execute 0x0A,
           VteEvent.csi_dispatch vte_params_clear [] false 74])
        vte_params_clear [] false 117).cursor_x = 1 ∧
    (enhanced_csi_dispatch
        (apply_events
          (enhanced_csi_dispatch
            { mk_panel 4 3 with cursor_x := 1, cursor_y := 1, fg_color := 2 }
            vte_params_clear [] false 115)
          [VteEvent.print 0x41, VteEvent.execute 0x0A,
           VteEvent.csi_dispatch vte_params_clear [] false 74])
        vte_params_clear [] false 117).fg_color = 2 :=
  ⟨by decide,
   ((c8_save_restore_roundtrip
      { mk_panel 4 3 with cursor_x := 1, cursor_y := 1, fg_color := 2 }
      [VteEvent.print 0x41, VteEvent.execute 0x0A,
       VteEvent.csi_dispatch vte_params_clear [] false 74]
      vte_params_clear [] (by decide)).2.1).1,
   ((c8_save_restore_roundtrip
      { mk_panel 4 3 with cursor_x := 1, cursor_y := 1, fg_color := 2 }
      [VteEvent.print 0x41, VteEvent.execute 0x0A,
       VteEvent.csi_dispatch vte_params_clear [] false 74]
      vte_params_clear [] (by decide)).2.1).2.2.1⟩

/-! ### C1: slice invariance across UTF-8 boundaries -/

/-- C1 (code bug): feeding the UTF-8 encoding of U+00E9 whole prints
U+00E9, but splitting its two bytes across consecutive slices prints
U+FFFD twice and leaves a different final screen.  The header declares a
partial-UTF-8 buffer (`partial_utf8`, `partial_utf8_len`) but the
implementation never reads or writes it: the ground-state fast path
prints a replacement character for a lead byte whose continuation bytes
are truncated at the end of the feed slice, so slice invariance fails
both for the dispatched event stream and for the final screen state. -/
theorem c1_slice_invariance_broken :
    (vte_parser_advance vte_parser_init [0xC3, 0xA9]).2 = [VteEvent.print 0xE9] ∧
    (vte_advance_slices vte_parser_init [[0xC3], [0xA9]]).2 =
      [VteEvent.print 0xFFFD, VteEvent.print 0xFFFD] ∧
    (vte_advance_slices vte_parser_init [[0xC3], [0xA9]]).2 ≠
      (vte_parser_advance vte_parser_init [0xC3, 0xA9]).2 ∧
    (vte_feed_slices (mk_panel 4 3, vte_parser_init) [[0xC3], [0xA9]]).1 ≠
      (vte_feed (mk_panel 4 3, vte_parser_init) [0xC3, 0xA9]).1 ∧
    (screen_cell (vte_feed (mk_panel 4 3, vte_parser_init) [0xC3, 0xA9]).1 0 0).codepoint
      = 0xE9 ∧
    (screen_cell (vte_feed_slices (mk_panel 4 3, vte_parser_init) [[0xC3], [0xA9]]).1
        0 0).codepoint = 0xFFFD := by decide
